import Mathlib

deriving instance DecidableEq for Except

/-!
Verification of the build-options configuration model of
`language/move-fuzzer/move-fuzz/src/options.rs`.

The file embeds the data model (`Sanitizer`, `MoveBuildOptions`,
`CargoBuildOptions`, `BuildOptions`, `FuzzDirWrapper`), the `Display`
serializers of those structs, and the command-line parser that the
`clap::Parser` derive generates from the `#[arg(..)]` attributes declared
in the source.  Serialized output is a string of space-separated flag
tokens; parsing follows the repository's own round-trip harness, which
feeds `to_string().split(' ')` to `parse_from` (the first token plays the
role of `argv[0]` and is skipped).
-/

namespace MoveFuzz

/-- The `Sanitizer` enum of the source (`Copy, Clone, Eq, PartialEq, ValueEnum`). -/
inductive Sanitizer where
  | Address
  | Leak
  | Memory
  | Thread
  | None
deriving DecidableEq

/-- The `Display` impl for `Sanitizer`: canonical lowercase names, with the
empty string for `Sanitizer::None`. -/
def Sanitizer.display : Sanitizer → String
  | .Address => "address"
  | .Leak => "leak"
  | .Memory => "memory"
  | .Thread => "thread"
  | .None => ""

/-- The `MoveBuildOptions` struct.  `bytecode_version` is a `u32` in Rust;
it is embedded as a `Nat` together with an explicit `< 2^32` bound where a
claim needs it. -/
structure MoveBuildOptions where
  bytecode_version : Option Nat
  fetch_deps_only : Bool
  force : Bool
  skip_fetch_latest_git_deps : Bool
deriving DecidableEq

/-- The `CargoBuildOptions` struct. -/
structure CargoBuildOptions where
  release : Bool
  debug_assertions : Bool
  no_default_features : Bool
  all_features : Bool
  features : Option String
  sanitizer : Sanitizer
  build_std : Bool
  careful_mode : Bool
  triple : String
  unstable_flags : List String
  coverage : Bool
  strip_dead_code : Bool
  no_cfg_fuzzing : Bool
  no_trace_compares : Bool
deriving DecidableEq

/-- The top-level `BuildOptions` struct. -/
structure BuildOptions where
  dev : Bool
  verbose : Bool
  target_dir : Option String
  move_options : MoveBuildOptions
  cargo_options : CargoBuildOptions
deriving DecidableEq

/-- The `FuzzDirWrapper` struct (`fuzz_dir: Option<PathBuf>`, embedded as a
string path). -/
structure FuzzDirWrapper where
  fuzz_dir : Option String
deriving DecidableEq

/-- Modelled from the spec: `crate::utils::default_target()` is not part of
the visible source.  The spec describes it as the host-native target
triple, a fixed string used both as the clap default of `--target` and in
the serializer's omission test; we fix one concrete host triple for it. -/
def defaultTarget : String := "x86_64-unknown-linux-gnu"

/-- Decimal digit characters, used to render a `u32` the way Rust's integer
`Display` does. -/
def digitChar : Nat → Char
  | 0 => '0'
  | 1 => '1'
  | 2 => '2'
  | 3 => '3'
  | 4 => '4'
  | 5 => '5'
  | 6 => '6'
  | 7 => '7'
  | 8 => '8'
  | 9 => '9'
  | _ => '*'

/-- Decimal rendering of a natural number (Rust's `Display` for unsigned
integers): most-significant digit first, `"0"` for zero. -/
def natRepr (n : Nat) : String :=
  if n = 0 then "0" else ⟨(Nat.digits 10 n).reverse.map digitChar⟩

/-- Inverse of `digitChar` on ASCII digits, as Rust's `char::to_digit`
computes it: accept a character between `'0'` and `'9'` and subtract the
code of `'0'`. -/
def charDigit (c : Char) : Option Nat :=
  if '0' ≤ c ∧ c ≤ '9' then some (c.toNat - 48) else none

/-- Read a most-significant-first digit sequence, failing on any non-digit. -/
def readDigits : List Char → Option (List Nat)
  | [] => some []
  | c :: cs =>
    match charDigit c, readDigits cs with
    | some d, some ds => some (d :: ds)
    | _, _ => none

/-- Rust's `u32::from_str`, as clap's value parser for a `u32` argument uses
it: an optional leading `+`, then a nonempty run of decimal digits, with
the value required to fit in 32 bits. -/
def parseU32 (l : List Char) : Option Nat :=
  let body := if l.head? = some '+' then l.tail else l
  if body = [] then none
  else
    match readDigits body with
    | some ds =>
      let n := Nat.ofDigits 10 ds.reverse
      if n < 4294967296 then some n else none
    | none => none

/-- Strip a known string from the front of a character list, as Rust's
`str::strip_prefix` does. -/
def stripPre : List Char → List Char → Option (List Char)
  | [], l => some l
  | _ :: _, [] => none
  | p :: ps, c :: cs => if p = c then stripPre ps cs else none

/-- Split a long-option body at its first `=`, the way clap's lexer cuts
`--flag=value` into the flag name and its attached value. -/
def splitEq : List Char → List Char × Option (List Char)
  | [] => ([], none)
  | c :: cs =>
    if c = '=' then ([], some cs)
    else
      let (n, v) := splitEq cs
      (c :: n, v)

/-- Rust's `str::split(' ')`: greedy split at every single space, keeping
empty chunks (so `"".split(' ')` is `[""]` and a leading space yields a
leading empty chunk). -/
def splitSpace : List Char → List (List Char)
  | [] => [[]]
  | c :: rest =>
    if c = ' ' then [] :: splitSpace rest
    else
      match splitSpace rest with
      | [] => [[c]]
      | t :: ts => (c :: t) :: ts

/-- Concatenate flag tokens the way every `Display` impl in the source
does: each token is written as `write!(f, " {token}")`, i.e. with a single
leading space. -/
def renderTokens : List String → String
  | [] => ""
  | t :: ts => " " ++ t ++ renderTokens ts

/-- An optional field's flag fragment: emit its token only when the field
is present (the `if let Some(..)` pattern of the `Display` impls). -/
def optTok {α : Type} (v : Option α) (g : α → String) : List String :=
  match v with
  | some x => [g x]
  | none => []

/-- The sanitizer's flag fragment, following the `match` in
`impl Display for CargoBuildOptions`: nothing for the implicit default
`Address`, an explicit `--sanitizer=none` for `None`, and
`--sanitizer=<display name>` for the rest. -/
def sanTok (sn : Sanitizer) : List String :=
  match sn with
  | .None => ["--sanitizer=none"]
  | .Address => []
  | s => ["--sanitizer=" ++ s.display]

/-- The flag tokens written by `impl Display for MoveBuildOptions`, in
source order. -/
def MoveBuildOptions.toTokens (m : MoveBuildOptions) : List String :=
  optTok m.bytecode_version (fun n => "--bytecode-version=" ++ natRepr n) ++
  (if m.fetch_deps_only then ["--fetch-deps-only"] else []) ++
  (if m.force then ["--force"] else []) ++
  (if m.skip_fetch_latest_git_deps then ["--skip-fetch-latest-git-deps"] else [])

/-- The string produced by `impl Display for MoveBuildOptions`. -/
def MoveBuildOptions.display (m : MoveBuildOptions) : String :=
  renderTokens m.toTokens

/-- The flag tokens written by `impl Display for CargoBuildOptions`, in
source order: `-O`, `--no-default-features`, `--all-features`,
`--features=`, the sanitizer (nothing for `Address`, `--sanitizer=none`
for `None`, `--sanitizer=<name>` otherwise), `--build-std`, `--careful`,
`--coverage`, `--debug-assertions`, `--strip-dead-code`,
`--no-cfg-fuzzing`, `--no-trace-compares`, `--target=` when the triple
differs from the default, then one `-Z<flag>` per unstable flag. -/
def CargoBuildOptions.toTokens (c : CargoBuildOptions) : List String :=
  (if c.release then ["-O"] else []) ++
  (if c.no_default_features then ["--no-default-features"] else []) ++
  (if c.all_features then ["--all-features"] else []) ++
  optTok c.features (fun f => "--features=" ++ f) ++
  sanTok c.sanitizer ++
  (if c.build_std then ["--build-std"] else []) ++
  (if c.careful_mode then ["--careful"] else []) ++
  (if c.coverage then ["--coverage"] else []) ++
  (if c.debug_assertions then ["--debug-assertions"] else []) ++
  (if c.strip_dead_code then ["--strip-dead-code"] else []) ++
  (if c.no_cfg_fuzzing then ["--no-cfg-fuzzing"] else []) ++
  (if c.no_trace_compares then ["--no-trace-compares"] else []) ++
  (if c.triple ≠ defaultTarget then ["--target=" ++ c.triple] else []) ++
  c.unstable_flags.map (fun u => "-Z" ++ u)

/-- The string produced by `impl Display for CargoBuildOptions`. -/
def CargoBuildOptions.display (c : CargoBuildOptions) : String :=
  renderTokens c.toTokens

/-- The flag tokens written by `impl Display for BuildOptions`: the move
options, then the cargo options, then `-D`, `-v` and `--target-dir=`. -/
def BuildOptions.toTokens (o : BuildOptions) : List String :=
  o.move_options.toTokens ++
  o.cargo_options.toTokens ++
  (if o.dev then ["-D"] else []) ++
  (if o.verbose then ["-v"] else []) ++
  optTok o.target_dir (fun d => "--target-dir=" ++ d)

/-- The string produced by `impl Display for BuildOptions`. -/
def BuildOptions.display (o : BuildOptions) : String :=
  renderTokens o.toTokens

/-- The flag tokens written by `impl Display for FuzzDirWrapper`. -/
def FuzzDirWrapper.toTokens (w : FuzzDirWrapper) : List String :=
  optTok w.fuzz_dir (fun p => "--fuzz-dir=" ++ p)

/-- The string produced by `impl Display for FuzzDirWrapper`. -/
def FuzzDirWrapper.display (w : FuzzDirWrapper) : String :=
  renderTokens w.toTokens

/-- The clap defaults of `MoveBuildOptions`: every flag off. -/
def defaultMove : MoveBuildOptions :=
  { bytecode_version := none
    fetch_deps_only := false
    force := false
    skip_fetch_latest_git_deps := false }

/-- The clap defaults of `CargoBuildOptions`: every flag off,
`sanitizer = address` (its declared `default_value`), the host triple for
`--target`, and `coverage = false` (the declared `skip` default). -/
def defaultCargo : CargoBuildOptions :=
  { release := false
    debug_assertions := false
    no_default_features := false
    all_features := false
    features := none
    sanitizer := .Address
    build_std := false
    careful_mode := false
    triple := defaultTarget
    unstable_flags := []
    coverage := false
    strip_dead_code := false
    no_cfg_fuzzing := false
    no_trace_compares := false }

/-- The clap defaults of `BuildOptions`. -/
def defaultBuild : BuildOptions :=
  { dev := false
    verbose := false
    target_dir := none
    move_options := defaultMove
    cargo_options := defaultCargo }

/-- The error kinds the parser can surface: mutually exclusive flags both
present, a missing or ill-typed value for a value-bearing flag, or an
unknown token. -/
inductive ParseError where
  | conflict
  | malformedValue
  | unrecognizedFlag
deriving DecidableEq

/-- Outcome of offering one token to a (sub)parser: the token is not one of
its flags, it is one of its flags but its value is bad, or it updates the
options, possibly also consuming the following token as the flag's value. -/
inductive TokOut (σ : Type) where
  | noMatch
  | err (e : ParseError)
  | upd (s : σ)
  | updSkip (s : σ)
deriving DecidableEq

/-- clap takes the token after a value-bearing flag as that flag's value
only when it does not itself look like a flag (it does not start with
`-`); otherwise the value counts as missing. -/
def nextValue : Option String → Option String
  | some v => if v.data.head? = some '-' then none else some v
  | none => none

/-- A boolean flag: clap's `SetTrue` action takes no value, so an attached
`=value` is rejected. -/
def boolOut {σ : Type} (val? : Option (List Char)) (s : σ) : TokOut σ :=
  match val? with
  | some _ => .err .malformedValue
  | none => .upd s

/-- A value-bearing flag: use the attached `=value` if present, otherwise
take the next token; a missing or unparsable value is an error. -/
def valOut {σ α : Type} (parseVal : List Char → Option α) (val? : Option (List Char))
    (next? : Option String) (set : α → σ) : TokOut σ :=
  match val? with
  | some v =>
    match parseVal v with
    | some a => .upd (set a)
    | none => .err .malformedValue
  | none =>
    match nextValue next? with
    | some v =>
      match parseVal v.data with
      | some a => .updSkip (set a)
      | none => .err .malformedValue
    | none => .err .malformedValue

/-- A plain string value always parses. -/
def parseStr (l : List Char) : Option String :=
  some ⟨l⟩

/-- clap's `ValueEnum` names for `Sanitizer`: the lowercase variant names. -/
def parseSanitizer (l : List Char) : Option Sanitizer :=
  if l = "address".data then some .Address
  else if l = "leak".data then some .Leak
  else if l = "memory".data then some .Memory
  else if l = "thread".data then some .Thread
  else if l = "none".data then some .None
  else none

/-- Long options of `CargoBuildOptions`, from its `#[arg(..)]` attributes.
`coverage` carries `#[arg(skip = false)]`, so it is not an argument at all
and no `--coverage` case appears here. -/
def cargoLong (name : List Char) (val? : Option (List Char)) (next? : Option String)
    (c : CargoBuildOptions) : TokOut CargoBuildOptions :=
  if name = "release".data then boolOut val? { c with release := true }
  else if name = "debug-assertions".data then boolOut val? { c with debug_assertions := true }
  else if name = "no-default-features".data then
    boolOut val? { c with no_default_features := true }
  else if name = "all-features".data then boolOut val? { c with all_features := true }
  else if name = "features".data then
    valOut parseStr val? next? (fun v => { c with features := some v })
  else if name = "sanitizer".data then
    valOut parseSanitizer val? next? (fun s => { c with sanitizer := s })
  else if name = "build-std".data then boolOut val? { c with build_std := true }
  else if name = "careful".data then boolOut val? { c with careful_mode := true }
  else if name = "target".data then
    valOut parseStr val? next? (fun v => { c with triple := v })
  else if name = "strip-dead-code".data then boolOut val? { c with strip_dead_code := true }
  else if name = "no-cfg-fuzzing".data then boolOut val? { c with no_cfg_fuzzing := true }
  else if name = "no-trace-compares".data then boolOut val? { c with no_trace_compares := true }
  else .noMatch

/-- Short options of `CargoBuildOptions`: `-O`, `-a`, `-c`, `-s` (sanitizer,
value attached or next token) and `-Z` (repeated, value attached or next
token, appended in order). -/
def cargoShort (body : List Char) (next? : Option String)
    (c : CargoBuildOptions) : TokOut CargoBuildOptions :=
  match body with
  | ['O'] => .upd { c with release := true }
  | ['a'] => .upd { c with debug_assertions := true }
  | ['c'] => .upd { c with careful_mode := true }
  | 's' :: rest =>
    valOut parseSanitizer (if rest = [] then none else some rest) next?
      (fun s => { c with sanitizer := s })
  | 'Z' :: rest =>
    valOut parseStr (if rest = [] then none else some rest) next?
      (fun v => { c with unstable_flags := c.unstable_flags ++ [v] })
  | _ => .noMatch

/-- One token offered to the `CargoBuildOptions` flag set. -/
def cargoTok (t : String) (next? : Option String)
    (c : CargoBuildOptions) : TokOut CargoBuildOptions :=
  match t.data with
  | '-' :: '-' :: body =>
    match splitEq body with
    | (name, val?) => cargoLong name val? next? c
  | '-' :: body => cargoShort body next? c
  | _ => .noMatch

/-- Long options of `MoveBuildOptions` (it declares no short options). -/
def moveLong (name : List Char) (val? : Option (List Char)) (next? : Option String)
    (m : MoveBuildOptions) : TokOut MoveBuildOptions :=
  if name = "bytecode-version".data then
    valOut parseU32 val? next? (fun n => { m with bytecode_version := some n })
  else if name = "fetch-deps-only".data then boolOut val? { m with fetch_deps_only := true }
  else if name = "force".data then boolOut val? { m with force := true }
  else if name = "skip-fetch-latest-git-deps".data then
    boolOut val? { m with skip_fetch_latest_git_deps := true }
  else .noMatch

/-- One token offered to the `MoveBuildOptions` flag set. -/
def moveTok (t : String) (next? : Option String)
    (m : MoveBuildOptions) : TokOut MoveBuildOptions :=
  match t.data with
  | '-' :: '-' :: body =>
    match splitEq body with
    | (name, val?) => moveLong name val? next? m
  | _ => .noMatch

/-- Long options declared directly on `BuildOptions`. -/
def topLong (name : List Char) (val? : Option (List Char)) (next? : Option String)
    (o : BuildOptions) : TokOut BuildOptions :=
  if name = "dev".data then boolOut val? { o with dev := true }
  else if name = "verbose".data then boolOut val? { o with verbose := true }
  else if name = "target-dir".data then
    valOut parseStr val? next? (fun v => { o with target_dir := some v })
  else .noMatch

/-- Short options declared directly on `BuildOptions`: `-D` and `-v`. -/
def topShort (body : List Char) (o : BuildOptions) : TokOut BuildOptions :=
  match body with
  | ['D'] => .upd { o with dev := true }
  | ['v'] => .upd { o with verbose := true }
  | _ => .noMatch

/-- One token offered to the flags declared directly on `BuildOptions`. -/
def topTok (t : String) (next? : Option String) (o : BuildOptions) : TokOut BuildOptions :=
  match t.data with
  | '-' :: '-' :: body =>
    match splitEq body with
    | (name, val?) => topLong name val? next? o
  | '-' :: body => topShort body o
  | _ => .noMatch

/-- One token offered to the flattened `BuildOptions` parser: its own flags,
then the flattened `MoveBuildOptions` flags, then the flattened
`CargoBuildOptions` flags. -/
def buildTok (t : String) (next? : Option String) (o : BuildOptions) : TokOut BuildOptions :=
  match topTok t next? o with
  | .noMatch =>
    match moveTok t next? o.move_options with
    | .noMatch =>
      (match cargoTok t next? o.cargo_options with
       | .noMatch => .noMatch
       | .err e => .err e
       | .upd c => .upd { o with cargo_options := c }
       | .updSkip c => .updSkip { o with cargo_options := c })
    | .err e => .err e
    | .upd m => .upd { o with move_options := m }
    | .updSkip m => .updSkip { o with move_options := m }
  | r => r

/-- Process the argument tokens left to right, threading the options record.
A token no flag set recognizes (including any token without a leading `-`,
since `BuildOptions` declares no positional arguments) is an unknown
argument.  In the `updSkip` case with no following token the branch is
unreachable (a skip is only produced when a next token exists), and
returning the accumulated record keeps the equation `parseBuildAux [] o = .ok o`. -/
def parseBuildAux : List String → BuildOptions → Except ParseError BuildOptions
  | [], o => .ok o
  | t :: rest, o =>
    match buildTok t rest.head? o with
    | .noMatch => .error .unrecognizedFlag
    | .err e => .error e
    | .upd o2 => parseBuildAux rest o2
    | .updSkip o2 =>
      match rest with
      | [] => .ok o2
      | _ :: rest2 => parseBuildAux rest2 o2

/-- clap's post-parse conflict validation, from the `conflicts_with`
attributes: `--dev` excludes `--release`, and `--all-features` excludes
both `--no-default-features` and `--features`. -/
def checkConflicts (o : BuildOptions) : Except ParseError BuildOptions :=
  if o.dev && o.cargo_options.release then .error .conflict
  else if o.cargo_options.all_features &&
      (o.cargo_options.no_default_features || o.cargo_options.features.isSome) then
    .error .conflict
  else .ok o

/-- Parse a list of argument tokens into a `BuildOptions`, starting from the
clap defaults and validating conflicts at the end. -/
def parseBuildTokens (ts : List String) : Except ParseError BuildOptions :=
  match parseBuildAux ts defaultBuild with
  | .ok o => checkConflicts o
  | .error e => .error e

/-- The repository's round-trip entry point,
`BuildOptions::parse_from(string.split(' '))`: split the flag string at
spaces and drop the first chunk, which `parse_from` treats as `argv[0]`. -/
def parseBuildString (s : String) : Except ParseError BuildOptions :=
  parseBuildTokens (((splitSpace s.data).map fun l => (⟨l⟩ : String)).drop 1)

/-- A string that survives the space-separated flag encoding: it contains no
space. -/
def strOk (s : String) : Prop :=
  ' ' ∉ s.data

instance (s : String) : Decidable (strOk s) := by
  unfold strOk
  infer_instance

/-- Well-formedness of an optional string field. -/
def optOk : Option String → Prop
  | some s => strOk s
  | none => True

instance (v : Option String) : Decidable (optOk v) := by
  cases v <;> simp [optOk] <;> infer_instance

/-- The fields of a `MoveBuildOptions` fit their Rust types: the bytecode
version is a `u32`. -/
def MoveBuildOptions.wf (m : MoveBuildOptions) : Prop :=
  match m.bytecode_version with
  | some n => n < 4294967296
  | none => True

instance (m : MoveBuildOptions) : Decidable m.wf := by
  unfold MoveBuildOptions.wf
  cases m.bytecode_version <;> infer_instance

/-- A `CargoBuildOptions` whose serialized form survives the space-split
round trip: its string fields are space-free, every unstable flag is
nonempty, and the programmatic-only `coverage` field is off. -/
def CargoBuildOptions.wf (c : CargoBuildOptions) : Prop :=
  optOk c.features ∧ strOk c.triple ∧
  (∀ u ∈ c.unstable_flags, strOk u ∧ u ≠ "") ∧
  c.coverage = false

/-- The documented cargo-side invariant: `all_features` excludes
`no_default_features` and `features`. -/
def CargoBuildOptions.valid (c : CargoBuildOptions) : Prop :=
  ¬(c.all_features = true ∧
    (c.no_default_features = true ∨ c.features.isSome = true))

/-- A `BuildOptions` whose serialized form survives the space-split round
trip. -/
def BuildOptions.wf (o : BuildOptions) : Prop :=
  o.move_options.wf ∧ o.cargo_options.wf ∧ optOk o.target_dir

/-- The documented invariants of `BuildOptions`: `dev` excludes `release`,
and the cargo-side feature exclusions hold. -/
def BuildOptions.valid (o : BuildOptions) : Prop :=
  ¬(o.dev = true ∧ o.cargo_options.release = true) ∧ o.cargo_options.valid

/-! Basic facts about strings, decimal rendering, and space-splitting. -/

lemma strOk_append {a b : String} (ha : strOk a) (hb : strOk b) : strOk (a ++ b) := by
  unfold strOk at *
  rw [String.data_append]
  intro hmem
  rcases List.mem_append.mp hmem with h | h
  exacts [ha h, hb h]

lemma charDigit_digitChar {d : Nat} (h : d < 10) : charDigit (digitChar d) = some d := by
  interval_cases d <;> decide

lemma digitChar_ne_plus {d : Nat} (h : d < 10) : digitChar d ≠ '+' := by
  interval_cases d <;> decide

lemma digitChar_ne_space {d : Nat} (h : d < 10) : digitChar d ≠ ' ' := by
  interval_cases d <;> decide

lemma readDigits_map {ds : List Nat} (h : ∀ d ∈ ds, d < 10) :
    readDigits (ds.map digitChar) = some ds := by
  induction ds with
  | nil => rfl
  | cons d ds ih =>
    simp only [List.map_cons, readDigits]
    rw [charDigit_digitChar (h d (by simp)), ih (fun x hx => h x (by simp [hx]))]

lemma parseU32_digits {ds : List Nat} (h10 : ∀ d ∈ ds, d < 10) (hne : ds ≠ [])
    (hlt : Nat.ofDigits 10 ds.reverse < 4294967296) :
    parseU32 (ds.map digitChar) = some (Nat.ofDigits 10 ds.reverse) := by
  obtain ⟨d, ds2, rfl⟩ := List.exists_cons_of_ne_nil hne
  have hplus : digitChar d ≠ '+' := digitChar_ne_plus (h10 d (by simp))
  have hlt2 : Nat.ofDigits 10 (ds2.reverse ++ [d]) < 4294967296 := by simpa using hlt
  have hrd : readDigits (digitChar d :: ds2.map digitChar) = some (d :: ds2) :=
    readDigits_map h10
  unfold parseU32
  simp [hplus, hrd, hlt2]

lemma parseU32_natRepr {n : Nat} (h : n < 4294967296) :
    parseU32 (natRepr n).data = some n := by
  by_cases h0 : n = 0
  · subst h0; decide
  · have hrepr : (natRepr n).data = ((Nat.digits 10 n).reverse).map digitChar := by
      unfold natRepr
      rw [if_neg h0]
    rw [hrepr]
    have h10 : ∀ d ∈ (Nat.digits 10 n).reverse, d < 10 := fun d hd =>
      Nat.digits_lt_base (by norm_num) (List.mem_reverse.mp hd)
    have hne : (Nat.digits 10 n).reverse ≠ [] := by
      simp [Nat.digits_ne_nil_iff_ne_zero, h0]
    rw [parseU32_digits h10 hne (by rwa [List.reverse_reverse, Nat.ofDigits_digits])]
    rw [List.reverse_reverse, Nat.ofDigits_digits]

lemma natRepr_strOk (n : Nat) : strOk (natRepr n) := by
  unfold natRepr strOk
  split
  · decide
  · intro hmem
    rcases List.mem_map.mp hmem with ⟨d, hd, hc⟩
    have : d < 10 := Nat.digits_lt_base (by norm_num) (List.mem_reverse.mp hd)
    exact digitChar_ne_space this hc

lemma splitSpace_chunk {u : List Char} (hu : ' ' ∉ u) {r h2 : List Char} {tl : List (List Char)}
    (hr : splitSpace r = h2 :: tl) : splitSpace (u ++ r) = (u ++ h2) :: tl := by
  induction u with
  | nil => simpa using hr
  | cons c u ih =>
    have hc : ¬(c = ' ') := fun e => hu (by simp [e])
    have ih2 := ih (fun hx => hu (List.mem_cons_of_mem _ hx))
    have hstep : splitSpace (c :: (u ++ r)) =
        match splitSpace (u ++ r) with
        | [] => [[c]]
        | t :: ts => (c :: t) :: ts := by
      simp [splitSpace, hc]
    rw [List.cons_append, hstep, ih2]
    rfl

lemma splitSpace_render {ts : List String} (h : ∀ t ∈ ts, strOk t) :
    splitSpace (renderTokens ts).data = [] :: ts.map String.data := by
  induction ts with
  | nil => rfl
  | cons t ts ih =>
    have hdata : (renderTokens (t :: ts)).data =
        ' ' :: (t.data ++ (renderTokens ts).data) := by
      show ((" " ++ (t ++ renderTokens ts)) : String).data = _
      simp [String.data_append]
    rw [hdata]
    simp only [splitSpace, if_pos rfl]
    rw [splitSpace_chunk (h t (by simp)) (ih (fun x hx => h x (by simp [hx])))]
    simp

lemma parse_of_display {o : BuildOptions} (hok : ∀ t ∈ o.toTokens, strOk t) :
    parseBuildString o.display = parseBuildTokens o.toTokens := by
  unfold parseBuildString BuildOptions.display
  rw [splitSpace_render hok]
  simp only [List.map_cons, List.drop_succ_cons, List.drop_zero]
  congr 1
  rw [List.map_map]
  rw [show ((fun l => (⟨l⟩ : String)) ∘ String.data) = id from funext fun t => rfl]
  exact List.map_id _

lemma renderTokens_head {ts : List String} (h : renderTokens ts ≠ "") :
    (renderTokens ts).data.head? = some ' ' := by
  cases ts with
  | nil => exact absurd rfl h
  | cons t ts =>
    show ((" " ++ (t ++ renderTokens ts)) : String).data.head? = _
    simp [String.data_append]

/-! Evaluation of `buildTok` on each token shape the serializers emit. -/

lemma buildTok_dashD (o : BuildOptions) (q : Option String) :
    buildTok "-D" q o = .upd { o with dev := true } := rfl

lemma buildTok_dev (o : BuildOptions) (q : Option String) :
    buildTok "--dev" q o = .upd { o with dev := true } := rfl

lemma buildTok_dashv (o : BuildOptions) (q : Option String) :
    buildTok "-v" q o = .upd { o with verbose := true } := rfl

lemma buildTok_targetDir (d : String) (o : BuildOptions) (q : Option String) :
    buildTok ("--target-dir=" ++ d) q o = .upd { o with target_dir := some d } := by
  simp +decide [buildTok, topTok, topLong, splitEq, valOut, parseStr, String.data_append]

lemma buildTok_bytecode {n : Nat} (h : n < 4294967296) (o : BuildOptions) (q : Option String) :
    buildTok ("--bytecode-version=" ++ natRepr n) q o =
      .upd { o with move_options := { o.move_options with bytecode_version := some n } } := by
  simp +decide [buildTok, topTok, topLong, moveTok, moveLong, splitEq, valOut,
    String.data_append, parseU32_natRepr h]

lemma buildTok_bytecode_bad {v : String} (h : parseU32 v.data = none)
    (o : BuildOptions) (q : Option String) :
    buildTok ("--bytecode-version=" ++ v) q o = .err .malformedValue := by
  simp +decide [buildTok, topTok, topLong, moveTok, moveLong, splitEq, valOut,
    String.data_append, h]

lemma buildTok_sanitizer_bad {v : String} (h : parseSanitizer v.data = none)
    (o : BuildOptions) (q : Option String) :
    buildTok ("--sanitizer=" ++ v) q o = .err .malformedValue := by
  simp +decide [buildTok, topTok, topLong, moveTok, moveLong, cargoTok, cargoLong,
    splitEq, valOut, String.data_append, h]

lemma buildTok_fetchDepsOnly (o : BuildOptions) (q : Option String) :
    buildTok "--fetch-deps-only" q o =
      .upd { o with move_options := { o.move_options with fetch_deps_only := true } } := rfl

lemma buildTok_force (o : BuildOptions) (q : Option String) :
    buildTok "--force" q o =
      .upd { o with move_options := { o.move_options with force := true } } := rfl

lemma buildTok_skipFetch (o : BuildOptions) (q : Option String) :
    buildTok "--skip-fetch-latest-git-deps" q o =
      .upd { o with move_options :=
        { o.move_options with skip_fetch_latest_git_deps := true } } := rfl

lemma buildTok_O (o : BuildOptions) (q : Option String) :
    buildTok "-O" q o =
      .upd { o with cargo_options := { o.cargo_options with release := true } } := rfl

lemma buildTok_release (o : BuildOptions) (q : Option String) :
    buildTok "--release" q o =
      .upd { o with cargo_options := { o.cargo_options with release := true } } := rfl

lemma buildTok_ndf (o : BuildOptions) (q : Option String) :
    buildTok "--no-default-features" q o =
      .upd { o with cargo_options :=
        { o.cargo_options with no_default_features := true } } := rfl

lemma buildTok_af (o : BuildOptions) (q : Option String) :
    buildTok "--all-features" q o =
      .upd { o with cargo_options := { o.cargo_options with all_features := true } } := rfl

lemma buildTok_features (f : String) (o : BuildOptions) (q : Option String) :
    buildTok ("--features=" ++ f) q o =
      .upd { o with cargo_options := { o.cargo_options with features := some f } } := by
  simp +decide [buildTok, topTok, topLong, moveTok, moveLong, cargoTok, cargoLong,
    splitEq, valOut, parseStr, String.data_append]

lemma buildTok_sanNone (o : BuildOptions) (q : Option String) :
    buildTok "--sanitizer=none" q o =
      .upd { o with cargo_options := { o.cargo_options with sanitizer := .None } } := rfl

lemma buildTok_sanOther {s : Sanitizer} (h1 : s ≠ .Address) (h2 : s ≠ .None)
    (o : BuildOptions) (q : Option String) :
    buildTok ("--sanitizer=" ++ s.display) q o =
      .upd { o with cargo_options := { o.cargo_options with sanitizer := s } } := by
  cases s
  · exact absurd rfl h1
  · rfl
  · rfl
  · rfl
  · exact absurd rfl h2

lemma buildTok_buildStd (o : BuildOptions) (q : Option String) :
    buildTok "--build-std" q o =
      .upd { o with cargo_options := { o.cargo_options with build_std := true } } := rfl

lemma buildTok_careful (o : BuildOptions) (q : Option String) :
    buildTok "--careful" q o =
      .upd { o with cargo_options := { o.cargo_options with careful_mode := true } } := rfl

lemma buildTok_coverage (o : BuildOptions) (q : Option String) :
    buildTok "--coverage" q o = .noMatch := rfl

lemma buildTok_debugAssertions (o : BuildOptions) (q : Option String) :
    buildTok "--debug-assertions" q o =
      .upd { o with cargo_options := { o.cargo_options with debug_assertions := true } } := rfl

lemma buildTok_stripDeadCode (o : BuildOptions) (q : Option String) :
    buildTok "--strip-dead-code" q o =
      .upd { o with cargo_options := { o.cargo_options with strip_dead_code := true } } := rfl

lemma buildTok_noCfgFuzzing (o : BuildOptions) (q : Option String) :
    buildTok "--no-cfg-fuzzing" q o =
      .upd { o with cargo_options := { o.cargo_options with no_cfg_fuzzing := true } } := rfl

lemma buildTok_noTraceCompares (o : BuildOptions) (q : Option String) :
    buildTok "--no-trace-compares" q o =
      .upd { o with cargo_options := { o.cargo_options with no_trace_compares := true } } := rfl

lemma buildTok_target (tr : String) (o : BuildOptions) (q : Option String) :
    buildTok ("--target=" ++ tr) q o =
      .upd { o with cargo_options := { o.cargo_options with triple := tr } } := by
  simp +decide [buildTok, topTok, topLong, moveTok, moveLong, cargoTok, cargoLong,
    splitEq, valOut, parseStr, String.data_append]

lemma buildTok_unstable {u : String} (hu : u ≠ "") (o : BuildOptions) (q : Option String) :
    buildTok ("-Z" ++ u) q o =
      .upd { o with cargo_options :=
        { o.cargo_options with
          unstable_flags := o.cargo_options.unstable_flags ++ [u] } } := by
  have hud : u.data ≠ [] := fun h => hu (by cases u; simp_all)
  simp +decide [buildTok, topTok, topShort, moveTok, cargoTok, cargoShort,
    valOut, parseStr, String.data_append, hud]

/-! Single-step and per-fragment evaluation of `parseBuildAux`. -/

lemma aux_cons_upd {t : String} {o o2 : BuildOptions}
    (h : buildTok t (TS : List String).head? o = .upd o2) :
    parseBuildAux (t :: TS) o = parseBuildAux TS o2 := by
  simp only [parseBuildAux]
  rw [h]

/-! Per-field fragment lemmas: consuming one serializer fragment updates
exactly the corresponding field. -/

lemma aux_frag_dev (b : Bool) (rest : List String) (o : BuildOptions) :
    parseBuildAux ((if b then ["-D"] else []) ++ rest) o =
      parseBuildAux rest { o with dev := o.dev || b } := by
  cases b
  · simp only [Bool.or_false]; rfl
  · simp only [Bool.or_true]; exact aux_cons_upd (buildTok_dashD o rest.head?)

lemma aux_frag_verbose (b : Bool) (rest : List String) (o : BuildOptions) :
    parseBuildAux ((if b then ["-v"] else []) ++ rest) o =
      parseBuildAux rest { o with verbose := o.verbose || b } := by
  cases b
  · simp only [Bool.or_false]; rfl
  · simp only [Bool.or_true]; exact aux_cons_upd (buildTok_dashv o rest.head?)

lemma aux_frag_targetDir (td : Option String) (rest : List String) (o : BuildOptions) :
    parseBuildAux (optTok td (fun d => "--target-dir=" ++ d) ++ rest) o =
      parseBuildAux rest { o with target_dir := td.or o.target_dir } := by
  cases td with
  | none => rfl
  | some d => exact aux_cons_upd (buildTok_targetDir d o rest.head?)

lemma aux_frag_bytecode {bv : Option Nat}
    (hb : ∀ n, bv = some n → n < 4294967296)
    (rest : List String) (o : BuildOptions) :
    parseBuildAux
      (optTok bv (fun n => "--bytecode-version=" ++ natRepr n) ++ rest) o =
      parseBuildAux rest { o with move_options :=
        { o.move_options with bytecode_version := bv.or o.move_options.bytecode_version } } := by
  cases bv with
  | none => rfl
  | some n => exact aux_cons_upd (buildTok_bytecode (hb n rfl) o rest.head?)

lemma aux_frag_fetch (b : Bool) (rest : List String) (o : BuildOptions) :
    parseBuildAux ((if b then ["--fetch-deps-only"] else []) ++ rest) o =
      parseBuildAux rest { o with move_options :=
        { o.move_options with fetch_deps_only := o.move_options.fetch_deps_only || b } } := by
  cases b
  · simp only [Bool.or_false]; rfl
  · simp only [Bool.or_true]; exact aux_cons_upd (buildTok_fetchDepsOnly o rest.head?)

lemma aux_frag_force (b : Bool) (rest : List String) (o : BuildOptions) :
    parseBuildAux ((if b then ["--force"] else []) ++ rest) o =
      parseBuildAux rest { o with move_options :=
        { o.move_options with force := o.move_options.force || b } } := by
  cases b
  · simp only [Bool.or_false]; rfl
  · simp only [Bool.or_true]; exact aux_cons_upd (buildTok_force o rest.head?)

lemma aux_frag_skipFetch (b : Bool) (rest : List String) (o : BuildOptions) :
    parseBuildAux ((if b then ["--skip-fetch-latest-git-deps"] else []) ++ rest) o =
      parseBuildAux rest { o with move_options :=
        { o.move_options with skip_fetch_latest_git_deps :=
          o.move_options.skip_fetch_latest_git_deps || b } } := by
  cases b
  · simp only [Bool.or_false]; rfl
  · simp only [Bool.or_true]; exact aux_cons_upd (buildTok_skipFetch o rest.head?)

lemma aux_frag_release (b : Bool) (rest : List String) (o : BuildOptions) :
    parseBuildAux ((if b then ["-O"] else []) ++ rest) o =
      parseBuildAux rest { o with cargo_options :=
        { o.cargo_options with release := o.cargo_options.release || b } } := by
  cases b
  · simp only [Bool.or_false]; rfl
  · simp only [Bool.or_true]; exact aux_cons_upd (buildTok_O o rest.head?)

lemma aux_frag_ndf (b : Bool) (rest : List String) (o : BuildOptions) :
    parseBuildAux ((if b then ["--no-default-features"] else []) ++ rest) o =
      parseBuildAux rest { o with cargo_options :=
        { o.cargo_options with no_default_features :=
          o.cargo_options.no_default_features || b } } := by
  cases b
  · simp only [Bool.or_false]; rfl
  · simp only [Bool.or_true]; exact aux_cons_upd (buildTok_ndf o rest.head?)

lemma aux_frag_af (b : Bool) (rest : List String) (o : BuildOptions) :
    parseBuildAux ((if b then ["--all-features"] else []) ++ rest) o =
      parseBuildAux rest { o with cargo_options :=
        { o.cargo_options with all_features := o.cargo_options.all_features || b } } := by
  cases b
  · simp only [Bool.or_false]; rfl
  · simp only [Bool.or_true]; exact aux_cons_upd (buildTok_af o rest.head?)

lemma aux_frag_features (ft : Option String) (rest : List String) (o : BuildOptions) :
    parseBuildAux (optTok ft (fun f => "--features=" ++ f) ++ rest) o =
      parseBuildAux rest { o with cargo_options :=
        { o.cargo_options with features := ft.or o.cargo_options.features } } := by
  cases ft with
  | none => rfl
  | some f => exact aux_cons_upd (buildTok_features f o rest.head?)

lemma aux_frag_sanitizer (sn : Sanitizer) (rest : List String) (o : BuildOptions) :
    parseBuildAux (sanTok sn ++ rest) o =
      parseBuildAux rest { o with cargo_options :=
        { o.cargo_options with sanitizer :=
          if sn = .Address then o.cargo_options.sanitizer else sn } } := by
  cases sn
  · rfl
  · exact aux_cons_upd (buildTok_sanOther (by decide) (by decide) o rest.head?)
  · exact aux_cons_upd (buildTok_sanOther (by decide) (by decide) o rest.head?)
  · exact aux_cons_upd (buildTok_sanOther (by decide) (by decide) o rest.head?)
  · exact aux_cons_upd (buildTok_sanNone o rest.head?)

lemma aux_frag_buildStd (b : Bool) (rest : List String) (o : BuildOptions) :
    parseBuildAux ((if b then ["--build-std"] else []) ++ rest) o =
      parseBuildAux rest { o with cargo_options :=
        { o.cargo_options with build_std := o.cargo_options.build_std || b } } := by
  cases b
  · simp only [Bool.or_false]; rfl
  · simp only [Bool.or_true]; exact aux_cons_upd (buildTok_buildStd o rest.head?)

lemma aux_frag_careful (b : Bool) (rest : List String) (o : BuildOptions) :
    parseBuildAux ((if b then ["--careful"] else []) ++ rest) o =
      parseBuildAux rest { o with cargo_options :=
        { o.cargo_options with careful_mode := o.cargo_options.careful_mode || b } } := by
  cases b
  · simp only [Bool.or_false]; rfl
  · simp only [Bool.or_true]; exact aux_cons_upd (buildTok_careful o rest.head?)

lemma aux_frag_debugAssertions (b : Bool) (rest : List String) (o : BuildOptions) :
    parseBuildAux ((if b then ["--debug-assertions"] else []) ++ rest) o =
      parseBuildAux rest { o with cargo_options :=
        { o.cargo_options with debug_assertions := o.cargo_options.debug_assertions || b } } := by
  cases b
  · simp only [Bool.or_false]; rfl
  · simp only [Bool.or_true]; exact aux_cons_upd (buildTok_debugAssertions o rest.head?)

lemma aux_frag_stripDead (b : Bool) (rest : List String) (o : BuildOptions) :
    parseBuildAux ((if b then ["--strip-dead-code"] else []) ++ rest) o =
      parseBuildAux rest { o with cargo_options :=
        { o.cargo_options with strip_dead_code := o.cargo_options.strip_dead_code || b } } := by
  cases b
  · simp only [Bool.or_false]; rfl
  · simp only [Bool.or_true]; exact aux_cons_upd (buildTok_stripDeadCode o rest.head?)

lemma aux_frag_noCfg (b : Bool) (rest : List String) (o : BuildOptions) :
    parseBuildAux ((if b then ["--no-cfg-fuzzing"] else []) ++ rest) o =
      parseBuildAux rest { o with cargo_options :=
        { o.cargo_options with no_cfg_fuzzing := o.cargo_options.no_cfg_fuzzing || b } } := by
  cases b
  · simp only [Bool.or_false]; rfl
  · simp only [Bool.or_true]; exact aux_cons_upd (buildTok_noCfgFuzzing o rest.head?)

lemma aux_frag_noTrace (b : Bool) (rest : List String) (o : BuildOptions) :
    parseBuildAux ((if b then ["--no-trace-compares"] else []) ++ rest) o =
      parseBuildAux rest { o with cargo_options :=
        { o.cargo_options with no_trace_compares := o.cargo_options.no_trace_compares || b } } := by
  cases b
  · simp only [Bool.or_false]; rfl
  · simp only [Bool.or_true]; exact aux_cons_upd (buildTok_noTraceCompares o rest.head?)

lemma aux_frag_triple (tr : String) (rest : List String) (o : BuildOptions) :
    parseBuildAux ((if tr ≠ defaultTarget then ["--target=" ++ tr] else []) ++ rest) o =
      parseBuildAux rest { o with cargo_options :=
        { o.cargo_options with triple :=
          if tr ≠ defaultTarget then tr else o.cargo_options.triple } } := by
  by_cases h : tr = defaultTarget
  · rw [if_neg (fun hn => hn h), if_neg (fun hn => hn h)]
    rfl
  · rw [if_pos h, if_pos h]
    exact aux_cons_upd (buildTok_target tr o rest.head?)

lemma aux_frag_unstable {us : List String} (hu : ∀ u ∈ us, u ≠ "")
    (rest : List String) (o : BuildOptions) :
    parseBuildAux ((us.map fun u => "-Z" ++ u) ++ rest) o =
      parseBuildAux rest { o with cargo_options :=
        { o.cargo_options with unstable_flags := o.cargo_options.unstable_flags ++ us } } := by
  induction us generalizing o with
  | nil => simp only [List.map_nil, List.nil_append, List.append_nil]
  | cons u us ih =>
    simp only [List.map_cons, List.cons_append]
    rw [aux_cons_upd (buildTok_unstable (hu u (by simp)) o
      (List.map (fun x => "-Z" ++ x) us ++ rest).head?)]
    rw [ih (fun x hx => hu x (by simp [hx]))]
    simp [List.append_assoc]

/-! Consuming a whole sub-struct serialization from a default-valued state
recovers that sub-struct. -/

lemma wf_bytecode {m : MoveBuildOptions} (hw : m.wf) :
    ∀ n, m.bytecode_version = some n → n < 4294967296 := by
  unfold MoveBuildOptions.wf at hw
  intro n hn
  rw [hn] at hw
  exact hw

lemma aux_moveTokens {m : MoveBuildOptions} (hw : m.wf) (rest : List String)
    (o : BuildOptions) (h : o.move_options = defaultMove) :
    parseBuildAux (m.toTokens ++ rest) o = parseBuildAux rest { o with move_options := m } := by
  have hb := wf_bytecode hw
  obtain ⟨bv, f1, f2, f3⟩ := m
  unfold MoveBuildOptions.toTokens
  simp only [List.append_assoc]
  rw [aux_frag_bytecode hb, aux_frag_fetch, aux_frag_force, aux_frag_skipFetch]
  simp [h, defaultMove, Bool.false_or, Option.or_none]

lemma aux_cargoTokens {c : CargoBuildOptions} (hw : c.wf) (rest : List String)
    (o : BuildOptions) (h : o.cargo_options = defaultCargo) :
    parseBuildAux (c.toTokens ++ rest) o = parseBuildAux rest { o with cargo_options := c } := by
  obtain ⟨rel, da, ndf, af, ft, sn, bs, cm, tr, us, cov, sdc, ncf, ntc⟩ := c
  obtain ⟨hf, ht, hu2, hcov⟩ := hw
  dsimp only at hcov
  subst hcov
  unfold CargoBuildOptions.toTokens
  simp only [Bool.false_eq_true, if_false, List.nil_append, List.append_assoc]
  rw [aux_frag_release, aux_frag_ndf, aux_frag_af, aux_frag_features, aux_frag_sanitizer,
    aux_frag_buildStd, aux_frag_careful, aux_frag_debugAssertions, aux_frag_stripDead,
    aux_frag_noCfg, aux_frag_noTrace, aux_frag_triple,
    aux_frag_unstable (fun u hu => (hu2 u hu).2)]
  by_cases h1 : sn = .Address <;> by_cases h2 : tr = defaultTarget <;>
    simp [h, defaultCargo, Bool.false_or, Option.or_none, h1, h2]

/-! Well-formed options serialize to space-free tokens. -/

lemma mem_iteTokP {t x : String} {p : Prop} [Decidable p]
    (h : t ∈ (if p then [x] else [])) : t = x := by
  split at h <;> simp_all

lemma mem_optTok {α : Type} {t : String} {v : Option α} {g : α → String}
    (h : t ∈ optTok v g) : ∃ x, v = some x ∧ t = g x := by
  cases v <;> simp_all [optTok]

lemma mem_sanTok {t : String} {sn : Sanitizer} (h : t ∈ sanTok sn) : strOk t := by
  cases sn
  · exact absurd h (by simp [sanTok])
  · rw [show t = "--sanitizer=leak" by simpa [sanTok, Sanitizer.display] using h]; decide
  · rw [show t = "--sanitizer=memory" by simpa [sanTok, Sanitizer.display] using h]; decide
  · rw [show t = "--sanitizer=thread" by simpa [sanTok, Sanitizer.display] using h]; decide
  · rw [show t = "--sanitizer=none" by simpa [sanTok] using h]; decide

lemma option_or_none {α : Type} (v : Option α) : v.or none = v := by
  cases v <;> rfl

lemma move_strOk (m : MoveBuildOptions) : ∀ t ∈ m.toTokens, strOk t := by
  intro t ht
  unfold MoveBuildOptions.toTokens at ht
  simp only [List.mem_append, or_assoc] at ht
  rcases ht with h | h | h | h
  · obtain ⟨n, _, rfl⟩ := mem_optTok h
    exact strOk_append (by decide) (natRepr_strOk n)
  · rw [mem_iteTokP h]; decide
  · rw [mem_iteTokP h]; decide
  · rw [mem_iteTokP h]; decide

lemma cargo_strOk {c : CargoBuildOptions} (hw : c.wf) : ∀ t ∈ c.toTokens, strOk t := by
  obtain ⟨hf, ht, hu2, hcov⟩ := hw
  intro t htm
  unfold CargoBuildOptions.toTokens at htm
  simp only [List.mem_append, or_assoc] at htm
  rcases htm with h | h | h | h | h | h | h | h | h | h | h | h | h | h
  · rw [mem_iteTokP h]; decide
  · rw [mem_iteTokP h]; decide
  · rw [mem_iteTokP h]; decide
  · obtain ⟨f, hsome, rfl⟩ := mem_optTok h
    refine strOk_append (by decide) ?_
    rw [hsome] at hf
    exact hf
  · exact mem_sanTok h
  · rw [mem_iteTokP h]; decide
  · rw [mem_iteTokP h]; decide
  · rw [mem_iteTokP h]; decide
  · rw [mem_iteTokP h]; decide
  · rw [mem_iteTokP h]; decide
  · rw [mem_iteTokP h]; decide
  · rw [mem_iteTokP h]; decide
  · rw [mem_iteTokP h]
    exact strOk_append (by decide) ht
  · rcases List.mem_map.mp h with ⟨u, hu, rfl⟩
    exact strOk_append (by decide) (hu2 u hu).1

lemma build_strOk {o : BuildOptions} (hw : o.wf) : ∀ t ∈ o.toTokens, strOk t := by
  obtain ⟨hm, hc, htd⟩ := hw
  intro t ht
  unfold BuildOptions.toTokens at ht
  simp only [List.mem_append, or_assoc] at ht
  rcases ht with h | h | h | h | h
  · exact move_strOk _ t h
  · exact cargo_strOk hc t h
  · rw [mem_iteTokP h]; decide
  · rw [mem_iteTokP h]; decide
  · obtain ⟨d, hsome, rfl⟩ := mem_optTok h
    refine strOk_append (by decide) ?_
    rw [hsome] at htd
    exact htd

/-! The master round-trip: parsing a well-formed serialized `BuildOptions`
recovers it exactly. -/

lemma aux_buildTokens {o : BuildOptions} (hw : o.wf) :
    parseBuildAux o.toTokens defaultBuild = .ok o := by
  obtain ⟨hm, hc, htd⟩ := hw
  obtain ⟨dv, vb, td, m, c⟩ := o
  rw [show (BuildOptions.mk dv vb td m c).toTokens
      = (BuildOptions.mk dv vb td m c).toTokens ++ [] from (List.append_nil _).symm]
  unfold BuildOptions.toTokens
  simp only [List.append_assoc]
  rw [aux_moveTokens hm _ _ rfl]
  rw [aux_cargoTokens hc _ _ rfl]
  rw [aux_frag_dev, aux_frag_verbose, aux_frag_targetDir]
  simp [parseBuildAux, defaultBuild, defaultMove, defaultCargo, Bool.false_or, option_or_none]

theorem roundtrip_build {o : BuildOptions} (hv : o.valid) (hw : o.wf) :
    parseBuildString o.display = .ok o := by
  rw [parse_of_display (build_strOk hw)]
  unfold parseBuildTokens
  rw [aux_buildTokens hw]
  show checkConflicts o = .ok o
  have h1 : ¬((o.dev && o.cargo_options.release) = true) := by
    simp only [Bool.and_eq_true]
    exact hv.1
  have h2 : ¬((o.cargo_options.all_features &&
      (o.cargo_options.no_default_features || o.cargo_options.features.isSome)) = true) := by
    simp only [Bool.and_eq_true, Bool.or_eq_true]
    exact hv.2
  unfold checkConflicts
  rw [if_neg h1, if_neg h2]

/-! Monotonicity of the parser state: tokens can only switch the
conflict-relevant flags on, never off. -/

/-- The conflict-relevant fields a token step can only turn on. -/
def CMono (c d : CargoBuildOptions) : Prop :=
  (c.release = true → d.release = true) ∧
  (c.all_features = true → d.all_features = true) ∧
  (c.no_default_features = true → d.no_default_features = true) ∧
  (c.features.isSome = true → d.features.isSome = true)

/-- The conflict-relevant fields of the whole options record. -/
def MonoRel (s t : BuildOptions) : Prop :=
  (s.dev = true → t.dev = true) ∧
  (s.cargo_options.release = true → t.cargo_options.release = true) ∧
  (s.cargo_options.all_features = true → t.cargo_options.all_features = true) ∧
  (s.cargo_options.no_default_features = true → t.cargo_options.no_default_features = true) ∧
  (s.cargo_options.features.isSome = true → t.cargo_options.features.isSome = true)

lemma monoRel_refl (s : BuildOptions) : MonoRel s s :=
  ⟨id, id, id, id, id⟩

lemma monoRel_trans {a b c : BuildOptions} (h1 : MonoRel a b) (h2 : MonoRel b c) :
    MonoRel a c :=
  ⟨fun h => h2.1 (h1.1 h), fun h => h2.2.1 (h1.2.1 h), fun h => h2.2.2.1 (h1.2.2.1 h),
   fun h => h2.2.2.2.1 (h1.2.2.2.1 h), fun h => h2.2.2.2.2 (h1.2.2.2.2 h)⟩

/-- Characterization of one token step: any successful update satisfies the
relation `R`, and a lookahead value is only consumed when it does not start
with `-`. -/
def TokShape {σ : Type} (R : σ → Prop) (r : TokOut σ) (q : Option String) : Prop :=
  ∀ d, ((r = .upd d ∨ r = .updSkip d) → R d) ∧
    (r = .updSkip d → ∀ w, q = some w → w.data.head? ≠ some '-')

lemma nextValue_some {q : Option String} {x : String} (h : nextValue q = some x) :
    ∀ v, q = some v → v.data.head? ≠ some '-' := by
  intro v hv hhead
  subst hv
  rw [show nextValue (some v) = if v.data.head? = some '-' then none else some v from rfl,
    if_pos hhead] at h
  exact absurd h (by simp)

lemma tokShape_noMatch {σ : Type} {R : σ → Prop} {q : Option String} :
    TokShape R .noMatch q :=
  fun _ => ⟨fun h => by rcases h with h | h <;> exact absurd h (by simp),
            fun h => absurd h (by simp)⟩

lemma tokShape_err {σ : Type} {R : σ → Prop} {q : Option String} {e : ParseError} :
    TokShape R (.err e) q :=
  fun _ => ⟨fun h => by rcases h with h | h <;> exact absurd h (by simp),
            fun h => absurd h (by simp)⟩

lemma tokShape_upd {σ : Type} {R : σ → Prop} {q : Option String} {s : σ} (hR : R s) :
    TokShape R (.upd s) q := by
  intro d
  refine ⟨fun h => ?_, fun h => absurd h (by simp)⟩
  rcases h with h | h
  · injection h with h2
    exact h2 ▸ hR
  · exact absurd h (by simp)

lemma tokShape_updSkip {σ : Type} {R : σ → Prop} {q : Option String} {s : σ} (hR : R s)
    (hq : ∀ w, q = some w → w.data.head? ≠ some '-') : TokShape R (.updSkip s) q := by
  intro d
  refine ⟨fun h => ?_, fun _ => hq⟩
  rcases h with h | h
  · exact absurd h (by simp)
  · injection h with h2
    exact h2 ▸ hR

lemma boolOut_cases {σ : Type} (val? : Option (List Char)) (s : σ) :
    boolOut val? s = .err .malformedValue ∨ boolOut val? s = .upd s := by
  unfold boolOut
  cases val?
  · exact Or.inr rfl
  · exact Or.inl rfl

lemma valOut_some_eq {σ α : Type} (pv : List Char → Option α) (v : List Char)
    (next? : Option String) (set : α → σ) :
    valOut pv (some v) next? set =
      (match pv v with
       | some a => TokOut.upd (set a)
       | none => TokOut.err .malformedValue) := rfl

lemma valOut_none_eq {σ α : Type} (pv : List Char → Option α)
    (next? : Option String) (set : α → σ) :
    valOut pv none next? set =
      (match nextValue next? with
       | some w =>
         match pv w.data with
         | some a => TokOut.updSkip (set a)
         | none => TokOut.err .malformedValue
       | none => TokOut.err .malformedValue) := rfl

lemma valOut_cases {σ α : Type} (pv : List Char → Option α) (val? : Option (List Char))
    (next? : Option String) (set : α → σ) :
    valOut pv val? next? set = .err .malformedValue ∨
    (∃ a, valOut pv val? next? set = .upd (set a)) ∨
    (∃ a w, nextValue next? = some w ∧ valOut pv val? next? set = .updSkip (set a)) := by
  cases val? with
  | some v =>
    rw [valOut_some_eq]
    cases pv v with
    | some a => exact Or.inr (Or.inl ⟨a, rfl⟩)
    | none => exact Or.inl rfl
  | none =>
    rw [valOut_none_eq]
    cases hnv : nextValue next? with
    | none => exact Or.inl rfl
    | some w =>
      dsimp only
      cases pv w.data with
      | some a => exact Or.inr (Or.inr ⟨a, w, rfl, rfl⟩)
      | none => exact Or.inl rfl

lemma tokShape_boolOut {σ : Type} {R : σ → Prop} {q : Option String}
    {val? : Option (List Char)} {s : σ} (hR : R s) : TokShape R (boolOut val? s) q := by
  rcases boolOut_cases val? s with h | h <;> rw [h]
  · exact tokShape_err
  · exact tokShape_upd hR

lemma tokShape_valOut {σ α : Type} {R : σ → Prop} (pv : List Char → Option α)
    (val? : Option (List Char)) (next? : Option String) {set : α → σ}
    (hA : ∀ a, R (set a)) : TokShape R (valOut pv val? next? set) next? := by
  rcases valOut_cases pv val? next? set with h | ⟨a, h⟩ | ⟨a, w, hnv, h⟩ <;> rw [h]
  · exact tokShape_err
  · exact tokShape_upd (hA a)
  · exact tokShape_updSkip (hA a) (nextValue_some hnv)

lemma cargoLong_shape (n : List Char) (v : Option (List Char)) (q : Option String)
    (c : CargoBuildOptions) : TokShape (CMono c) (cargoLong n v q c) q := by
  unfold cargoLong
  by_cases h1 : n = "release".data
  · rw [if_pos h1]
    exact tokShape_boolOut ⟨fun _ => rfl, id, id, id⟩
  rw [if_neg h1]
  by_cases h2 : n = "debug-assertions".data
  · rw [if_pos h2]
    exact tokShape_boolOut ⟨id, id, id, id⟩
  rw [if_neg h2]
  by_cases h3 : n = "no-default-features".data
  · rw [if_pos h3]
    exact tokShape_boolOut ⟨id, id, fun _ => rfl, id⟩
  rw [if_neg h3]
  by_cases h4 : n = "all-features".data
  · rw [if_pos h4]
    exact tokShape_boolOut ⟨id, fun _ => rfl, id, id⟩
  rw [if_neg h4]
  by_cases h5 : n = "features".data
  · rw [if_pos h5]
    exact tokShape_valOut _ _ _ (fun a => ⟨id, id, id, fun _ => rfl⟩)
  rw [if_neg h5]
  by_cases h6 : n = "sanitizer".data
  · rw [if_pos h6]
    exact tokShape_valOut _ _ _ (fun a => ⟨id, id, id, id⟩)
  rw [if_neg h6]
  by_cases h7 : n = "build-std".data
  · rw [if_pos h7]
    exact tokShape_boolOut ⟨id, id, id, id⟩
  rw [if_neg h7]
  by_cases h8 : n = "careful".data
  · rw [if_pos h8]
    exact tokShape_boolOut ⟨id, id, id, id⟩
  rw [if_neg h8]
  by_cases h9 : n = "target".data
  · rw [if_pos h9]
    exact tokShape_valOut _ _ _ (fun a => ⟨id, id, id, id⟩)
  rw [if_neg h9]
  by_cases h10 : n = "strip-dead-code".data
  · rw [if_pos h10]
    exact tokShape_boolOut ⟨id, id, id, id⟩
  rw [if_neg h10]
  by_cases h11 : n = "no-cfg-fuzzing".data
  · rw [if_pos h11]
    exact tokShape_boolOut ⟨id, id, id, id⟩
  rw [if_neg h11]
  by_cases h12 : n = "no-trace-compares".data
  · rw [if_pos h12]
    exact tokShape_boolOut ⟨id, id, id, id⟩
  rw [if_neg h12]
  exact tokShape_noMatch

lemma cargoShort_shape (body : List Char) (q : Option String) (c : CargoBuildOptions) :
    TokShape (CMono c) (cargoShort body q c) q := by
  unfold cargoShort
  repeat' split
  all_goals
    first
      | exact tokShape_noMatch
      | exact tokShape_upd
          (by refine ⟨?_, ?_, ?_, ?_⟩ <;> intro hh <;> first | exact hh | rfl)
      | exact tokShape_valOut _ _ _
          (fun a => by refine ⟨?_, ?_, ?_, ?_⟩ <;> intro hh <;> first | exact hh | rfl)

lemma cargoTok_shape (t : String) (q : Option String) (c : CargoBuildOptions) :
    TokShape (CMono c) (cargoTok t q c) q := by
  unfold cargoTok
  repeat' split
  all_goals
    first
      | exact tokShape_noMatch
      | exact cargoLong_shape _ _ _ _
      | exact cargoShort_shape _ _ _

lemma topLong_shape (n : List Char) (v : Option (List Char)) (q : Option String)
    (o : BuildOptions) : TokShape (MonoRel o) (topLong n v q o) q := by
  unfold topLong
  by_cases h1 : n = "dev".data
  · rw [if_pos h1]
    exact tokShape_boolOut ⟨fun _ => rfl, id, id, id, id⟩
  rw [if_neg h1]
  by_cases h2 : n = "verbose".data
  · rw [if_pos h2]
    exact tokShape_boolOut ⟨id, id, id, id, id⟩
  rw [if_neg h2]
  by_cases h3 : n = "target-dir".data
  · rw [if_pos h3]
    exact tokShape_valOut _ _ _ (fun a => ⟨id, id, id, id, id⟩)
  rw [if_neg h3]
  exact tokShape_noMatch

lemma topShort_shape (body : List Char) (q : Option String) (o : BuildOptions) :
    TokShape (MonoRel o) (topShort body o) q := by
  unfold topShort
  repeat' split
  all_goals
    first
      | exact tokShape_noMatch
      | exact tokShape_upd
          (by refine ⟨?_, ?_, ?_, ?_, ?_⟩ <;> intro hh <;> first | exact hh | rfl)

lemma topTok_shape (t : String) (q : Option String) (o : BuildOptions) :
    TokShape (MonoRel o) (topTok t q o) q := by
  unfold topTok
  repeat' split
  all_goals
    first
      | exact tokShape_noMatch
      | exact topLong_shape _ _ _ _
      | exact topShort_shape _ _ _

lemma moveLong_shape (n : List Char) (v : Option (List Char)) (q : Option String)
    (m : MoveBuildOptions) : TokShape (fun _ => True) (moveLong n v q m) q := by
  unfold moveLong
  by_cases h1 : n = "bytecode-version".data
  · rw [if_pos h1]
    exact tokShape_valOut _ _ _ (fun _ => trivial)
  rw [if_neg h1]
  by_cases h2 : n = "fetch-deps-only".data
  · rw [if_pos h2]
    exact tokShape_boolOut trivial
  rw [if_neg h2]
  by_cases h3 : n = "force".data
  · rw [if_pos h3]
    exact tokShape_boolOut trivial
  rw [if_neg h3]
  by_cases h4 : n = "skip-fetch-latest-git-deps".data
  · rw [if_pos h4]
    exact tokShape_boolOut trivial
  rw [if_neg h4]
  exact tokShape_noMatch

lemma moveTok_shape (t : String) (q : Option String) (m : MoveBuildOptions) :
    TokShape (fun _ => True) (moveTok t q m) q := by
  unfold moveTok
  repeat' split
  all_goals
    first
      | exact tokShape_noMatch
      | exact moveLong_shape _ _ _ _

lemma buildTok_shape (t : String) (q : Option String) (o : BuildOptions) :
    TokShape (MonoRel o) (buildTok t q o) q := by
  unfold buildTok
  cases htop : topTok t q o with
  | noMatch =>
    cases hmv : moveTok t q o.move_options with
    | noMatch =>
      cases hcg : cargoTok t q o.cargo_options with
      | noMatch => exact tokShape_noMatch
      | err e => exact tokShape_err
      | upd c2 =>
        have hc := ((cargoTok_shape t q o.cargo_options) c2).1 (Or.inl hcg)
        exact tokShape_upd ⟨id, hc.1, hc.2.1, hc.2.2.1, hc.2.2.2⟩
      | updSkip c2 =>
        have hc := ((cargoTok_shape t q o.cargo_options) c2).1 (Or.inr hcg)
        exact tokShape_updSkip ⟨id, hc.1, hc.2.1, hc.2.2.1, hc.2.2.2⟩
          (((cargoTok_shape t q o.cargo_options) c2).2 hcg)
    | err e => exact tokShape_err
    | upd m2 => exact tokShape_upd ⟨id, id, id, id, id⟩
    | updSkip m2 =>
      exact tokShape_updSkip ⟨id, id, id, id, id⟩
        (((moveTok_shape t q o.move_options) m2).2 hmv)
  | err e => exact tokShape_err
  | upd o2 => exact tokShape_upd (((topTok_shape t q o) o2).1 (Or.inl htop))
  | updSkip o2 =>
    exact tokShape_updSkip (((topTok_shape t q o) o2).1 (Or.inr htop))
      (((topTok_shape t q o) o2).2 htop)

lemma aux_mono : ∀ (n : Nat) (ts : List String) (s o2 : BuildOptions), ts.length ≤ n →
    parseBuildAux ts s = .ok o2 → MonoRel s o2 := by
  intro n
  induction n with
  | zero =>
    intro ts s o2 hn h
    have hts : ts = [] := List.length_eq_zero.mp (Nat.le_zero.mp hn)
    subst hts
    injection h with h2
    subst h2
    exact monoRel_refl _
  | succ n ih =>
    intro ts s o2 hn h
    cases ts with
    | nil =>
      injection h with h2
      subst h2
      exact monoRel_refl _
    | cons t rest =>
      simp only [parseBuildAux] at h
      cases hb : buildTok t rest.head? s with
      | noMatch => rw [hb] at h; exact absurd h (by simp)
      | err e => rw [hb] at h; exact absurd h (by simp)
      | upd s2 =>
        rw [hb] at h
        refine monoRel_trans (((buildTok_shape t rest.head? s) s2).1 (Or.inl hb))
          (ih rest s2 o2 ?_ h)
        simpa using Nat.le_of_succ_le_succ (by simpa using hn)
      | updSkip s2 =>
        rw [hb] at h
        cases rest with
        | nil =>
          injection h with h2
          subst h2
          exact ((buildTok_shape t (([] : List String).head?) s) s2).1 (Or.inr hb)
        | cons v rest2 =>
          refine monoRel_trans (((buildTok_shape t (v :: rest2).head? s) s2).1 (Or.inr hb))
            (ih rest2 s2 o2 ?_ h)
          simp only [List.length_cons] at hn
          omega

/-! Tokens seen in a successfully lexed stream leave their mark on the
result, and the hidden `--coverage` token is never accepted. -/

lemma aux_mem : ∀ (n : Nat) (ts : List String) (s o2 : BuildOptions), ts.length ≤ n →
    parseBuildAux ts s = .ok o2 →
    ("--dev" ∈ ts → o2.dev = true) ∧
    ("--release" ∈ ts → o2.cargo_options.release = true) ∧
    ("--all-features" ∈ ts → o2.cargo_options.all_features = true) ∧
    ("--no-default-features" ∈ ts → o2.cargo_options.no_default_features = true) ∧
    (∀ x, ("--features=" ++ x) ∈ ts → o2.cargo_options.features.isSome = true) ∧
    ("--coverage" ∉ ts) := by
  intro n
  induction n with
  | zero =>
    intro ts s o2 hn h
    have hts : ts = [] := List.length_eq_zero.mp (Nat.le_zero.mp hn)
    subst hts
    exact ⟨by simp, by simp, by simp, by simp, by simp, by simp⟩
  | succ n ih =>
    intro ts s o2 hn h
    cases ts with
    | nil => exact ⟨by simp, by simp, by simp, by simp, by simp, by simp⟩
    | cons t rest =>
      simp only [parseBuildAux] at h
      cases hb : buildTok t rest.head? s with
      | noMatch => rw [hb] at h; exact absurd h (by simp)
      | err e => rw [hb] at h; exact absurd h (by simp)
      | upd s2 =>
        rw [hb] at h
        have hlen : rest.length ≤ n := by
          simpa using Nat.le_of_succ_le_succ (by simpa using hn)
        have IH := ih rest s2 o2 hlen h
        have M := aux_mono rest.length rest s2 o2 le_rfl h
        refine ⟨?_, ?_, ?_, ?_, ?_, ?_⟩
        · intro hm
          rcases List.mem_cons.mp hm with heq | hm2
          · subst heq
            rw [buildTok_dev] at hb
            injection hb with hb2
            exact M.1 (by rw [← hb2])
          · exact IH.1 hm2
        · intro hm
          rcases List.mem_cons.mp hm with heq | hm2
          · subst heq
            rw [buildTok_release] at hb
            injection hb with hb2
            exact M.2.1 (by rw [← hb2])
          · exact IH.2.1 hm2
        · intro hm
          rcases List.mem_cons.mp hm with heq | hm2
          · subst heq
            rw [buildTok_af] at hb
            injection hb with hb2
            exact M.2.2.1 (by rw [← hb2])
          · exact IH.2.2.1 hm2
        · intro hm
          rcases List.mem_cons.mp hm with heq | hm2
          · subst heq
            rw [buildTok_ndf] at hb
            injection hb with hb2
            exact M.2.2.2.1 (by rw [← hb2])
          · exact IH.2.2.2.1 hm2
        · intro x hm
          rcases List.mem_cons.mp hm with heq | hm2
          · subst heq
            rw [buildTok_features x] at hb
            injection hb with hb2
            exact M.2.2.2.2 (by rw [← hb2]; rfl)
          · exact IH.2.2.2.2.1 x hm2
        · intro hm
          rcases List.mem_cons.mp hm with heq | hm2
          · subst heq
            rw [buildTok_coverage] at hb
            exact absurd hb (by simp)
          · exact IH.2.2.2.2.2 hm2
      | updSkip s2 =>
        rw [hb] at h
        cases rest with
        | nil =>
          injection h with h2
          subst h2
          refine ⟨?_, ?_, ?_, ?_, ?_, ?_⟩
          · intro hm
            rcases List.mem_cons.mp hm with heq | hm2
            · subst heq
              rw [buildTok_dev] at hb
              exact absurd hb (by simp)
            · exact absurd hm2 (List.not_mem_nil _)
          · intro hm
            rcases List.mem_cons.mp hm with heq | hm2
            · subst heq
              rw [buildTok_release] at hb
              exact absurd hb (by simp)
            · exact absurd hm2 (List.not_mem_nil _)
          · intro hm
            rcases List.mem_cons.mp hm with heq | hm2
            · subst heq
              rw [buildTok_af] at hb
              exact absurd hb (by simp)
            · exact absurd hm2 (List.not_mem_nil _)
          · intro hm
            rcases List.mem_cons.mp hm with heq | hm2
            · subst heq
              rw [buildTok_ndf] at hb
              exact absurd hb (by simp)
            · exact absurd hm2 (List.not_mem_nil _)
          · intro x hm
            rcases List.mem_cons.mp hm with heq | hm2
            · subst heq
              rw [buildTok_features x] at hb
              exact absurd hb (by simp)
            · exact absurd hm2 (List.not_mem_nil _)
          · intro hm
            rcases List.mem_cons.mp hm with heq | hm2
            · subst heq
              rw [buildTok_coverage] at hb
              exact absurd hb (by simp)
            · exact absurd hm2 (List.not_mem_nil _)
        | cons v rest2 =>
          have hskip := ((buildTok_shape t ((v :: rest2).head?) s) s2).2 hb v rfl
          have hlen2 : rest2.length ≤ n := by
            simp only [List.length_cons] at hn
            omega
          have IH := ih rest2 s2 o2 hlen2 h
          have M := aux_mono rest2.length rest2 s2 o2 le_rfl h
          refine ⟨?_, ?_, ?_, ?_, ?_, ?_⟩
          · intro hm
            rcases List.mem_cons.mp hm with heq | hm2
            · subst heq
              rw [buildTok_dev] at hb
              exact absurd hb (by simp)
            rcases List.mem_cons.mp hm2 with heq2 | hm3
            · subst heq2
              exact absurd rfl hskip
            · exact IH.1 hm3
          · intro hm
            rcases List.mem_cons.mp hm with heq | hm2
            · subst heq
              rw [buildTok_release] at hb
              exact absurd hb (by simp)
            rcases List.mem_cons.mp hm2 with heq2 | hm3
            · subst heq2
              exact absurd rfl hskip
            · exact IH.2.1 hm3
          · intro hm
            rcases List.mem_cons.mp hm with heq | hm2
            · subst heq
              rw [buildTok_af] at hb
              exact absurd hb (by simp)
            rcases List.mem_cons.mp hm2 with heq2 | hm3
            · subst heq2
              exact absurd rfl hskip
            · exact IH.2.2.1 hm3
          · intro hm
            rcases List.mem_cons.mp hm with heq | hm2
            · subst heq
              rw [buildTok_ndf] at hb
              exact absurd hb (by simp)
            rcases List.mem_cons.mp hm2 with heq2 | hm3
            · subst heq2
              exact absurd rfl hskip
            · exact IH.2.2.2.1 hm3
          · intro x hm
            rcases List.mem_cons.mp hm with heq | hm2
            · subst heq
              rw [buildTok_features x] at hb
              exact absurd hb (by simp)
            rcases List.mem_cons.mp hm2 with heq2 | hm3
            · subst heq2
              exact absurd rfl hskip
            · exact IH.2.2.2.2.1 x hm3
          · intro hm
            rcases List.mem_cons.mp hm with heq | hm2
            · subst heq
              rw [buildTok_coverage] at hb
              exact absurd hb (by simp)
            rcases List.mem_cons.mp hm2 with heq2 | hm3
            · subst heq2
              exact absurd rfl hskip
            · exact IH.2.2.2.2.2 hm3

/-! Serialized tokens are recognizable by their flag name: distinct flags
clash within their common prefix, so no token is mistaken for another
field's token. -/

/-- Two character lists disagree somewhere inside their common prefix. -/
def charClash : List Char → List Char → Bool
  | p :: ps, c :: cs => if p = c then charClash ps cs else true
  | _, _ => false

lemma stripPre_self_app (p b : List Char) : stripPre p (p ++ b) = some b := by
  induction p with
  | nil => rfl
  | cons c ps ih => simp [stripPre, ih]

lemma stripPre_clash {p a : List Char} (h : charClash p a = true) (b : List Char) :
    stripPre p (a ++ b) = none := by
  induction p generalizing a with
  | nil => simp [charClash] at h
  | cons pc ps ih =>
    cases a with
    | nil => simp [charClash] at h
    | cons ac as =>
      by_cases hc : pc = ac
      · rw [show charClash (pc :: ps) (ac :: as) = charClash ps as by simp [charClash, hc]] at h
        simp [stripPre, hc, ih h]
      · simp [stripPre, hc]

lemma charClash_self_app (p b : List Char) : charClash p (p ++ b) = false := by
  induction p with
  | nil => rfl
  | cons c ps ih => simp [charClash, ih]

lemma append_ne_of_clash {pre F : String} (h : charClash pre.data F.data = true)
    (v : String) : (pre ++ v) ≠ F := by
  intro he
  have hd : pre.data ++ v.data = F.data := by rw [← String.data_append, he]
  rw [← hd, charClash_self_app] at h
  exact absurd h (by simp)

/-- Recognize an exact boolean flag token. -/
def tokIsFlag (flag t : String) : Bool := t == flag

/-- Recognize a value-bearing flag token by its attached-value spelling. -/
def tokOfVal (pre t : String) : Bool := (stripPre pre.data t.data).isSome

lemma tokOfVal_self (pre v : String) : tokOfVal pre (pre ++ v) = true := by
  unfold tokOfVal
  rw [String.data_append, stripPre_self_app]
  rfl

lemma tokOfVal_clash {P pre : String} (h : charClash P.data pre.data = true) (v : String) :
    tokOfVal P (pre ++ v) = false := by
  unfold tokOfVal
  rw [String.data_append, stripPre_clash h]
  rfl

lemma tokIsFlag_append {F pre : String} (h : charClash pre.data F.data = true) (v : String) :
    tokIsFlag F (pre ++ v) = false := by
  unfold tokIsFlag
  exact beq_eq_false_iff_ne.mpr (append_ne_of_clash h v)

lemma filter_iteTok_nil {p : String → Bool} {P : Prop} [Decidable P] {x : String}
    (h : p x = false) : List.filter p (if P then [x] else []) = [] := by
  split <;> simp [h]

lemma filter_iteTok_self {p : String → Bool} {P : Prop} [Decidable P] {x : String}
    (h : p x = true) : List.filter p (if P then [x] else []) = (if P then [x] else []) := by
  split <;> simp [h]

lemma filter_optTok_nil {α : Type} {p : String → Bool} {v : Option α} {g : α → String}
    (h : ∀ a, p (g a) = false) : List.filter p (optTok v g) = [] := by
  cases v <;> simp [optTok, h]

lemma filter_optTok_self {α : Type} {p : String → Bool} {v : Option α} {g : α → String}
    (h : ∀ a, p (g a) = true) : List.filter p (optTok v g) = optTok v g := by
  cases v <;> simp [optTok, h]

lemma filter_sanTok_nil {p : String → Bool} {sn : Sanitizer}
    (h1 : p "--sanitizer=none" = false)
    (h2 : ∀ s2 : Sanitizer, p ("--sanitizer=" ++ s2.display) = false) :
    List.filter p (sanTok sn) = [] := by
  cases sn <;> simp [sanTok, h1, h2 _]

lemma filter_sanTok_self {p : String → Bool} {sn : Sanitizer}
    (h1 : p "--sanitizer=none" = true)
    (h2 : ∀ s2 : Sanitizer, p ("--sanitizer=" ++ s2.display) = true) :
    List.filter p (sanTok sn) = sanTok sn := by
  cases sn <;> simp [sanTok, h1, h2 _]

lemma filter_mapZ_nil {p : String → Bool} {us : List String}
    (h : ∀ u, p ("-Z" ++ u) = false) :
    List.filter p (us.map fun u => "-Z" ++ u) = [] := by
  induction us <;> simp_all

lemma filter_mapZ_self {p : String → Bool} {us : List String}
    (h : ∀ u, p ("-Z" ++ u) = true) :
    List.filter p (us.map fun u => "-Z" ++ u) = us.map fun u => "-Z" ++ u := by
  induction us <;> simp_all

set_option maxHeartbeats 2000000 in
/-- Filtering the serialized tokens by each flag's recognizer recovers
exactly that field's fragment: the serialization carries a flag only for
the field it belongs to. -/
lemma toTokens_filters (o : BuildOptions) :
    o.toTokens.filter (tokOfVal "--bytecode-version=") =
      optTok o.move_options.bytecode_version (fun n => "--bytecode-version=" ++ natRepr n) ∧
    o.toTokens.filter (tokIsFlag "--fetch-deps-only") =
      (if o.move_options.fetch_deps_only = true then ["--fetch-deps-only"] else []) ∧
    o.toTokens.filter (tokIsFlag "--force") =
      (if o.move_options.force = true then ["--force"] else []) ∧
    o.toTokens.filter (tokIsFlag "--skip-fetch-latest-git-deps") =
      (if o.move_options.skip_fetch_latest_git_deps = true then ["--skip-fetch-latest-git-deps"] else []) ∧
    o.toTokens.filter (tokIsFlag "-O") =
      (if o.cargo_options.release = true then ["-O"] else []) ∧
    o.toTokens.filter (tokIsFlag "--no-default-features") =
      (if o.cargo_options.no_default_features = true then ["--no-default-features"] else []) ∧
    o.toTokens.filter (tokIsFlag "--all-features") =
      (if o.cargo_options.all_features = true then ["--all-features"] else []) ∧
    o.toTokens.filter (tokOfVal "--features=") =
      optTok o.cargo_options.features (fun f => "--features=" ++ f) ∧
    o.toTokens.filter (tokOfVal "--sanitizer=") =
      sanTok o.cargo_options.sanitizer ∧
    o.toTokens.filter (tokIsFlag "--build-std") =
      (if o.cargo_options.build_std = true then ["--build-std"] else []) ∧
    o.toTokens.filter (tokIsFlag "--careful") =
      (if o.cargo_options.careful_mode = true then ["--careful"] else []) ∧
    o.toTokens.filter (tokIsFlag "--coverage") =
      (if o.cargo_options.coverage = true then ["--coverage"] else []) ∧
    o.toTokens.filter (tokIsFlag "--debug-assertions") =
      (if o.cargo_options.debug_assertions = true then ["--debug-assertions"] else []) ∧
    o.toTokens.filter (tokIsFlag "--strip-dead-code") =
      (if o.cargo_options.strip_dead_code = true then ["--strip-dead-code"] else []) ∧
    o.toTokens.filter (tokIsFlag "--no-cfg-fuzzing") =
      (if o.cargo_options.no_cfg_fuzzing = true then ["--no-cfg-fuzzing"] else []) ∧
    o.toTokens.filter (tokIsFlag "--no-trace-compares") =
      (if o.cargo_options.no_trace_compares = true then ["--no-trace-compares"] else []) ∧
    o.toTokens.filter (tokOfVal "--target=") =
      (if o.cargo_options.triple ≠ defaultTarget then ["--target=" ++ o.cargo_options.triple] else []) ∧
    o.toTokens.filter (tokOfVal "-Z") =
      (o.cargo_options.unstable_flags.map fun u => "-Z" ++ u) ∧
    o.toTokens.filter (tokIsFlag "-D") =
      (if o.dev = true then ["-D"] else []) ∧
    o.toTokens.filter (tokIsFlag "-v") =
      (if o.verbose = true then ["-v"] else []) ∧
    o.toTokens.filter (tokOfVal "--target-dir=") =
      optTok o.target_dir (fun d => "--target-dir=" ++ d) := by
  refine ⟨?_, ?_, ?_, ?_, ?_, ?_, ?_, ?_, ?_, ?_, ?_, ?_, ?_, ?_, ?_, ?_, ?_, ?_, ?_, ?_, ?_⟩
  · unfold BuildOptions.toTokens MoveBuildOptions.toTokens CargoBuildOptions.toTokens
    simp only [List.filter_append]
    rw [filter_optTok_self (fun a => tokOfVal_self _ _),
      filter_iteTok_nil (by decide),
      filter_iteTok_nil (by decide),
      filter_iteTok_nil (by decide),
      filter_iteTok_nil (by decide),
      filter_iteTok_nil (by decide),
      filter_iteTok_nil (by decide),
      filter_optTok_nil (fun a => tokOfVal_clash (by decide) _),
      filter_sanTok_nil (by decide) (fun s2 => tokOfVal_clash (by decide) _),
      filter_iteTok_nil (by decide),
      filter_iteTok_nil (by decide),
      filter_iteTok_nil (by decide),
      filter_iteTok_nil (by decide),
      filter_iteTok_nil (by decide),
      filter_iteTok_nil (by decide),
      filter_iteTok_nil (by decide),
      filter_iteTok_nil (tokOfVal_clash (by decide) _),
      filter_mapZ_nil (fun u => tokOfVal_clash (by decide) _),
      filter_iteTok_nil (by decide),
      filter_iteTok_nil (by decide),
      filter_optTok_nil (fun a => tokOfVal_clash (by decide) _)]
    simp
  · unfold BuildOptions.toTokens MoveBuildOptions.toTokens CargoBuildOptions.toTokens
    simp only [List.filter_append]
    rw [filter_optTok_nil (fun a => tokIsFlag_append (by decide) _),
      filter_iteTok_self (by decide),
      filter_iteTok_nil (by decide),
      filter_iteTok_nil (by decide),
      filter_iteTok_nil (by decide),
      filter_iteTok_nil (by decide),
      filter_iteTok_nil (by decide),
      filter_optTok_nil (fun a => tokIsFlag_append (by decide) _),
      filter_sanTok_nil (by decide) (fun s2 => tokIsFlag_append (by decide) _),
      filter_iteTok_nil (by decide),
      filter_iteTok_nil (by decide),
      filter_iteTok_nil (by decide),
      filter_iteTok_nil (by decide),
      filter_iteTok_nil (by decide),
      filter_iteTok_nil (by decide),
      filter_iteTok_nil (by decide),
      filter_iteTok_nil (tokIsFlag_append (by decide) _),
      filter_mapZ_nil (fun u => tokIsFlag_append (by decide) _),
      filter_iteTok_nil (by decide),
      filter_iteTok_nil (by decide),
      filter_optTok_nil (fun a => tokIsFlag_append (by decide) _)]
    simp
  · unfold BuildOptions.toTokens MoveBuildOptions.toTokens CargoBuildOptions.toTokens
    simp only [List.filter_append]
    rw [filter_optTok_nil (fun a => tokIsFlag_append (by decide) _),
      filter_iteTok_nil (by decide),
      filter_iteTok_self (by decide),
      filter_iteTok_nil (by decide),
      filter_iteTok_nil (by decide),
      filter_iteTok_nil (by decide),
      filter_iteTok_nil (by decide),
      filter_optTok_nil (fun a => tokIsFlag_append (by decide) _),
      filter_sanTok_nil (by decide) (fun s2 => tokIsFlag_append (by decide) _),
      filter_iteTok_nil (by decide),
      filter_iteTok_nil (by decide),
      filter_iteTok_nil (by decide),
      filter_iteTok_nil (by decide),
      filter_iteTok_nil (by decide),
      filter_iteTok_nil (by decide),
      filter_iteTok_nil (by decide),
      filter_iteTok_nil (tokIsFlag_append (by decide) _),
      filter_mapZ_nil (fun u => tokIsFlag_append (by decide) _),
      filter_iteTok_nil (by decide),
      filter_iteTok_nil (by decide),
      filter_optTok_nil (fun a => tokIsFlag_append (by decide) _)]
    simp
  · unfold BuildOptions.toTokens MoveBuildOptions.toTokens CargoBuildOptions.toTokens
    simp only [List.filter_append]
    rw [filter_optTok_nil (fun a => tokIsFlag_append (by decide) _),
      filter_iteTok_nil (by decide),
      filter_iteTok_nil (by decide),
      filter_iteTok_self (by decide),
      filter_iteTok_nil (by decide),
      filter_iteTok_nil (by decide),
      filter_iteTok_nil (by decide),
      filter_optTok_nil (fun a => tokIsFlag_append (by decide) _),
      filter_sanTok_nil (by decide) (fun s2 => tokIsFlag_append (by decide) _),
      filter_iteTok_nil (by decide),
      filter_iteTok_nil (by decide),
      filter_iteTok_nil (by decide),
      filter_iteTok_nil (by decide),
      filter_iteTok_nil (by decide),
      filter_iteTok_nil (by decide),
      filter_iteTok_nil (by decide),
      filter_iteTok_nil (tokIsFlag_append (by decide) _),
      filter_mapZ_nil (fun u => tokIsFlag_append (by decide) _),
      filter_iteTok_nil (by decide),
      filter_iteTok_nil (by decide),
      filter_optTok_nil (fun a => tokIsFlag_append (by decide) _)]
    simp
  · unfold BuildOptions.toTokens MoveBuildOptions.toTokens CargoBuildOptions.toTokens
    simp only [List.filter_append]
    rw [filter_optTok_nil (fun a => tokIsFlag_append (by decide) _),
      filter_iteTok_nil (by decide),
      filter_iteTok_nil (by decide),
      filter_iteTok_nil (by decide),
      filter_iteTok_self (by decide),
      filter_iteTok_nil (by decide),
      filter_iteTok_nil (by decide),
      filter_optTok_nil (fun a => tokIsFlag_append (by decide) _),
      filter_sanTok_nil (by decide) (fun s2 => tokIsFlag_append (by decide) _),
      filter_iteTok_nil (by decide),
      filter_iteTok_nil (by decide),
      filter_iteTok_nil (by decide),
      filter_iteTok_nil (by decide),
      filter_iteTok_nil (by decide),
      filter_iteTok_nil (by decide),
      filter_iteTok_nil (by decide),
      filter_iteTok_nil (tokIsFlag_append (by decide) _),
      filter_mapZ_nil (fun u => tokIsFlag_append (by decide) _),
      filter_iteTok_nil (by decide),
      filter_iteTok_nil (by decide),
      filter_optTok_nil (fun a => tokIsFlag_append (by decide) _)]
    simp
  · unfold BuildOptions.toTokens MoveBuildOptions.toTokens CargoBuildOptions.toTokens
    simp only [List.filter_append]
    rw [filter_optTok_nil (fun a => tokIsFlag_append (by decide) _),
      filter_iteTok_nil (by decide),
      filter_iteTok_nil (by decide),
      filter_iteTok_nil (by decide),
      filter_iteTok_nil (by decide),
      filter_iteTok_self (by decide),
      filter_iteTok_nil (by decide),
      filter_optTok_nil (fun a => tokIsFlag_append (by decide) _),
      filter_sanTok_nil (by decide) (fun s2 => tokIsFlag_append (by decide) _),
      filter_iteTok_nil (by decide),
      filter_iteTok_nil (by decide),
      filter_iteTok_nil (by decide),
      filter_iteTok_nil (by decide),
      filter_iteTok_nil (by decide),
      filter_iteTok_nil (by decide),
      filter_iteTok_nil (by decide),
      filter_iteTok_nil (tokIsFlag_append (by decide) _),
      filter_mapZ_nil (fun u => tokIsFlag_append (by decide) _),
      filter_iteTok_nil (by decide),
      filter_iteTok_nil (by decide),
      filter_optTok_nil (fun a => tokIsFlag_append (by decide) _)]
    simp
  · unfold BuildOptions.toTokens MoveBuildOptions.toTokens CargoBuildOptions.toTokens
    simp only [List.filter_append]
    rw [filter_optTok_nil (fun a => tokIsFlag_append (by decide) _),
      filter_iteTok_nil (by decide),
      filter_iteTok_nil (by decide),
      filter_iteTok_nil (by decide),
      filter_iteTok_nil (by decide),
      filter_iteTok_nil (by decide),
      filter_iteTok_self (by decide),
      filter_optTok_nil (fun a => tokIsFlag_append (by decide) _),
      filter_sanTok_nil (by decide) (fun s2 => tokIsFlag_append (by decide) _),
      filter_iteTok_nil (by decide),
      filter_iteTok_nil (by decide),
      filter_iteTok_nil (by decide),
      filter_iteTok_nil (by decide),
      filter_iteTok_nil (by decide),
      filter_iteTok_nil (by decide),
      filter_iteTok_nil (by decide),
      filter_iteTok_nil (tokIsFlag_append (by decide) _),
      filter_mapZ_nil (fun u => tokIsFlag_append (by decide) _),
      filter_iteTok_nil (by decide),
      filter_iteTok_nil (by decide),
      filter_optTok_nil (fun a => tokIsFlag_append (by decide) _)]
    simp
  · unfold BuildOptions.toTokens MoveBuildOptions.toTokens CargoBuildOptions.toTokens
    simp only [List.filter_append]
    rw [filter_optTok_nil (fun a => tokOfVal_clash (by decide) _),
      filter_iteTok_nil (by decide),
      filter_iteTok_nil (by decide),
      filter_iteTok_nil (by decide),
      filter_iteTok_nil (by decide),
      filter_iteTok_nil (by decide),
      filter_iteTok_nil (by decide),
      filter_optTok_self (fun a => tokOfVal_self _ _),
      filter_sanTok_nil (by decide) (fun s2 => tokOfVal_clash (by decide) _),
      filter_iteTok_nil (by decide),
      filter_iteTok_nil (by decide),
      filter_iteTok_nil (by decide),
      filter_iteTok_nil (by decide),
      filter_iteTok_nil (by decide),
      filter_iteTok_nil (by decide),
      filter_iteTok_nil (by decide),
      filter_iteTok_nil (tokOfVal_clash (by decide) _),
      filter_mapZ_nil (fun u => tokOfVal_clash (by decide) _),
      filter_iteTok_nil (by decide),
      filter_iteTok_nil (by decide),
      filter_optTok_nil (fun a => tokOfVal_clash (by decide) _)]
    simp
  · unfold BuildOptions.toTokens MoveBuildOptions.toTokens CargoBuildOptions.toTokens
    simp only [List.filter_append]
    rw [filter_optTok_nil (fun a => tokOfVal_clash (by decide) _),
      filter_iteTok_nil (by decide),
      filter_iteTok_nil (by decide),
      filter_iteTok_nil (by decide),
      filter_iteTok_nil (by decide),
      filter_iteTok_nil (by decide),
      filter_iteTok_nil (by decide),
      filter_optTok_nil (fun a => tokOfVal_clash (by decide) _),
      filter_sanTok_self (by decide) (fun s2 => tokOfVal_self _ _),
      filter_iteTok_nil (by decide),
      filter_iteTok_nil (by decide),
      filter_iteTok_nil (by decide),
      filter_iteTok_nil (by decide),
      filter_iteTok_nil (by decide),
      filter_iteTok_nil (by decide),
      filter_iteTok_nil (by decide),
      filter_iteTok_nil (tokOfVal_clash (by decide) _),
      filter_mapZ_nil (fun u => tokOfVal_clash (by decide) _),
      filter_iteTok_nil (by decide),
      filter_iteTok_nil (by decide),
      filter_optTok_nil (fun a => tokOfVal_clash (by decide) _)]
    simp
  · unfold BuildOptions.toTokens MoveBuildOptions.toTokens CargoBuildOptions.toTokens
    simp only [List.filter_append]
    rw [filter_optTok_nil (fun a => tokIsFlag_append (by decide) _),
      filter_iteTok_nil (by decide),
      filter_iteTok_nil (by decide),
      filter_iteTok_nil (by decide),
      filter_iteTok_nil (by decide),
      filter_iteTok_nil (by decide),
      filter_iteTok_nil (by decide),
      filter_optTok_nil (fun a => tokIsFlag_append (by decide) _),
      filter_sanTok_nil (by decide) (fun s2 => tokIsFlag_append (by decide) _),
      filter_iteTok_self (by decide),
      filter_iteTok_nil (by decide),
      filter_iteTok_nil (by decide),
      filter_iteTok_nil (by decide),
      filter_iteTok_nil (by decide),
      filter_iteTok_nil (by decide),
      filter_iteTok_nil (by decide),
      filter_iteTok_nil (tokIsFlag_append (by decide) _),
      filter_mapZ_nil (fun u => tokIsFlag_append (by decide) _),
      filter_iteTok_nil (by decide),
      filter_iteTok_nil (by decide),
      filter_optTok_nil (fun a => tokIsFlag_append (by decide) _)]
    simp
  · unfold BuildOptions.toTokens MoveBuildOptions.toTokens CargoBuildOptions.toTokens
    simp only [List.filter_append]
    rw [filter_optTok_nil (fun a => tokIsFlag_append (by decide) _),
      filter_iteTok_nil (by decide),
      filter_iteTok_nil (by decide),
      filter_iteTok_nil (by decide),
      filter_iteTok_nil (by decide),
      filter_iteTok_nil (by decide),
      filter_iteTok_nil (by decide),
      filter_optTok_nil (fun a => tokIsFlag_append (by decide) _),
      filter_sanTok_nil (by decide) (fun s2 => tokIsFlag_append (by decide) _),
      filter_iteTok_nil (by decide),
      filter_iteTok_self (by decide),
      filter_iteTok_nil (by decide),
      filter_iteTok_nil (by decide),
      filter_iteTok_nil (by decide),
      filter_iteTok_nil (by decide),
      filter_iteTok_nil (by decide),
      filter_iteTok_nil (tokIsFlag_append (by decide) _),
      filter_mapZ_nil (fun u => tokIsFlag_append (by decide) _),
      filter_iteTok_nil (by decide),
      filter_iteTok_nil (by decide),
      filter_optTok_nil (fun a => tokIsFlag_append (by decide) _)]
    simp
  · unfold BuildOptions.toTokens MoveBuildOptions.toTokens CargoBuildOptions.toTokens
    simp only [List.filter_append]
    rw [filter_optTok_nil (fun a => tokIsFlag_append (by decide) _),
      filter_iteTok_nil (by decide),
      filter_iteTok_nil (by decide),
      filter_iteTok_nil (by decide),
      filter_iteTok_nil (by decide),
      filter_iteTok_nil (by decide),
      filter_iteTok_nil (by decide),
      filter_optTok_nil (fun a => tokIsFlag_append (by decide) _),
      filter_sanTok_nil (by decide) (fun s2 => tokIsFlag_append (by decide) _),
      filter_iteTok_nil (by decide),
      filter_iteTok_nil (by decide),
      filter_iteTok_self (by decide),
      filter_iteTok_nil (by decide),
      filter_iteTok_nil (by decide),
      filter_iteTok_nil (by decide),
      filter_iteTok_nil (by decide),
      filter_iteTok_nil (tokIsFlag_append (by decide) _),
      filter_mapZ_nil (fun u => tokIsFlag_append (by decide) _),
      filter_iteTok_nil (by decide),
      filter_iteTok_nil (by decide),
      filter_optTok_nil (fun a => tokIsFlag_append (by decide) _)]
    simp
  · unfold BuildOptions.toTokens MoveBuildOptions.toTokens CargoBuildOptions.toTokens
    simp only [List.filter_append]
    rw [filter_optTok_nil (fun a => tokIsFlag_append (by decide) _),
      filter_iteTok_nil (by decide),
      filter_iteTok_nil (by decide),
      filter_iteTok_nil (by decide),
      filter_iteTok_nil (by decide),
      filter_iteTok_nil (by decide),
      filter_iteTok_nil (by decide),
      filter_optTok_nil (fun a => tokIsFlag_append (by decide) _),
      filter_sanTok_nil (by decide) (fun s2 => tokIsFlag_append (by decide) _),
      filter_iteTok_nil (by decide),
      filter_iteTok_nil (by decide),
      filter_iteTok_nil (by decide),
      filter_iteTok_self (by decide),
      filter_iteTok_nil (by decide),
      filter_iteTok_nil (by decide),
      filter_iteTok_nil (by decide),
      filter_iteTok_nil (tokIsFlag_append (by decide) _),
      filter_mapZ_nil (fun u => tokIsFlag_append (by decide) _),
      filter_iteTok_nil (by decide),
      filter_iteTok_nil (by decide),
      filter_optTok_nil (fun a => tokIsFlag_append (by decide) _)]
    simp
  · unfold BuildOptions.toTokens MoveBuildOptions.toTokens CargoBuildOptions.toTokens
    simp only [List.filter_append]
    rw [filter_optTok_nil (fun a => tokIsFlag_append (by decide) _),
      filter_iteTok_nil (by decide),
      filter_iteTok_nil (by decide),
      filter_iteTok_nil (by decide),
      filter_iteTok_nil (by decide),
      filter_iteTok_nil (by decide),
      filter_iteTok_nil (by decide),
      filter_optTok_nil (fun a => tokIsFlag_append (by decide) _),
      filter_sanTok_nil (by decide) (fun s2 => tokIsFlag_append (by decide) _),
      filter_iteTok_nil (by decide),
      filter_iteTok_nil (by decide),
      filter_iteTok_nil (by decide),
      filter_iteTok_nil (by decide),
      filter_iteTok_self (by decide),
      filter_iteTok_nil (by decide),
      filter_iteTok_nil (by decide),
      filter_iteTok_nil (tokIsFlag_append (by decide) _),
      filter_mapZ_nil (fun u => tokIsFlag_append (by decide) _),
      filter_iteTok_nil (by decide),
      filter_iteTok_nil (by decide),
      filter_optTok_nil (fun a => tokIsFlag_append (by decide) _)]
    simp
  · unfold BuildOptions.toTokens MoveBuildOptions.toTokens CargoBuildOptions.toTokens
    simp only [List.filter_append]
    rw [filter_optTok_nil (fun a => tokIsFlag_append (by decide) _),
      filter_iteTok_nil (by decide),
      filter_iteTok_nil (by decide),
      filter_iteTok_nil (by decide),
      filter_iteTok_nil (by decide),
      filter_iteTok_nil (by decide),
      filter_iteTok_nil (by decide),
      filter_optTok_nil (fun a => tokIsFlag_append (by decide) _),
      filter_sanTok_nil (by decide) (fun s2 => tokIsFlag_append (by decide) _),
      filter_iteTok_nil (by decide),
      filter_iteTok_nil (by decide),
      filter_iteTok_nil (by decide),
      filter_iteTok_nil (by decide),
      filter_iteTok_nil (by decide),
      filter_iteTok_self (by decide),
      filter_iteTok_nil (by decide),
      filter_iteTok_nil (tokIsFlag_append (by decide) _),
      filter_mapZ_nil (fun u => tokIsFlag_append (by decide) _),
      filter_iteTok_nil (by decide),
      filter_iteTok_nil (by decide),
      filter_optTok_nil (fun a => tokIsFlag_append (by decide) _)]
    simp
  · unfold BuildOptions.toTokens MoveBuildOptions.toTokens CargoBuildOptions.toTokens
    simp only [List.filter_append]
    rw [filter_optTok_nil (fun a => tokIsFlag_append (by decide) _),
      filter_iteTok_nil (by decide),
      filter_iteTok_nil (by decide),
      filter_iteTok_nil (by decide),
      filter_iteTok_nil (by decide),
      filter_iteTok_nil (by decide),
      filter_iteTok_nil (by decide),
      filter_optTok_nil (fun a => tokIsFlag_append (by decide) _),
      filter_sanTok_nil (by decide) (fun s2 => tokIsFlag_append (by decide) _),
      filter_iteTok_nil (by decide),
      filter_iteTok_nil (by decide),
      filter_iteTok_nil (by decide),
      filter_iteTok_nil (by decide),
      filter_iteTok_nil (by decide),
      filter_iteTok_nil (by decide),
      filter_iteTok_self (by decide),
      filter_iteTok_nil (tokIsFlag_append (by decide) _),
      filter_mapZ_nil (fun u => tokIsFlag_append (by decide) _),
      filter_iteTok_nil (by decide),
      filter_iteTok_nil (by decide),
      filter_optTok_nil (fun a => tokIsFlag_append (by decide) _)]
    simp
  · unfold BuildOptions.toTokens MoveBuildOptions.toTokens CargoBuildOptions.toTokens
    simp only [List.filter_append]
    rw [filter_optTok_nil (fun a => tokOfVal_clash (by decide) _),
      filter_iteTok_nil (by decide),
      filter_iteTok_nil (by decide),
      filter_iteTok_nil (by decide),
      filter_iteTok_nil (by decide),
      filter_iteTok_nil (by decide),
      filter_iteTok_nil (by decide),
      filter_optTok_nil (fun a => tokOfVal_clash (by decide) _),
      filter_sanTok_nil (by decide) (fun s2 => tokOfVal_clash (by decide) _),
      filter_iteTok_nil (by decide),
      filter_iteTok_nil (by decide),
      filter_iteTok_nil (by decide),
      filter_iteTok_nil (by decide),
      filter_iteTok_nil (by decide),
      filter_iteTok_nil (by decide),
      filter_iteTok_nil (by decide),
      filter_iteTok_self (tokOfVal_self _ _),
      filter_mapZ_nil (fun u => tokOfVal_clash (by decide) _),
      filter_iteTok_nil (by decide),
      filter_iteTok_nil (by decide),
      filter_optTok_nil (fun a => tokOfVal_clash (by decide) _)]
    simp
  · unfold BuildOptions.toTokens MoveBuildOptions.toTokens CargoBuildOptions.toTokens
    simp only [List.filter_append]
    rw [filter_optTok_nil (fun a => tokOfVal_clash (by decide) _),
      filter_iteTok_nil (by decide),
      filter_iteTok_nil (by decide),
      filter_iteTok_nil (by decide),
      filter_iteTok_nil (by decide),
      filter_iteTok_nil (by decide),
      filter_iteTok_nil (by decide),
      filter_optTok_nil (fun a => tokOfVal_clash (by decide) _),
      filter_sanTok_nil (by decide) (fun s2 => tokOfVal_clash (by decide) _),
      filter_iteTok_nil (by decide),
      filter_iteTok_nil (by decide),
      filter_iteTok_nil (by decide),
      filter_iteTok_nil (by decide),
      filter_iteTok_nil (by decide),
      filter_iteTok_nil (by decide),
      filter_iteTok_nil (by decide),
      filter_iteTok_nil (tokOfVal_clash (by decide) _),
      filter_mapZ_self (fun u => tokOfVal_self _ _),
      filter_iteTok_nil (by decide),
      filter_iteTok_nil (by decide),
      filter_optTok_nil (fun a => tokOfVal_clash (by decide) _)]
    simp
  · unfold BuildOptions.toTokens MoveBuildOptions.toTokens CargoBuildOptions.toTokens
    simp only [List.filter_append]
    rw [filter_optTok_nil (fun a => tokIsFlag_append (by decide) _),
      filter_iteTok_nil (by decide),
      filter_iteTok_nil (by decide),
      filter_iteTok_nil (by decide),
      filter_iteTok_nil (by decide),
      filter_iteTok_nil (by decide),
      filter_iteTok_nil (by decide),
      filter_optTok_nil (fun a => tokIsFlag_append (by decide) _),
      filter_sanTok_nil (by decide) (fun s2 => tokIsFlag_append (by decide) _),
      filter_iteTok_nil (by decide),
      filter_iteTok_nil (by decide),
      filter_iteTok_nil (by decide),
      filter_iteTok_nil (by decide),
      filter_iteTok_nil (by decide),
      filter_iteTok_nil (by decide),
      filter_iteTok_nil (by decide),
      filter_iteTok_nil (tokIsFlag_append (by decide) _),
      filter_mapZ_nil (fun u => tokIsFlag_append (by decide) _),
      filter_iteTok_self (by decide),
      filter_iteTok_nil (by decide),
      filter_optTok_nil (fun a => tokIsFlag_append (by decide) _)]
    simp
  · unfold BuildOptions.toTokens MoveBuildOptions.toTokens CargoBuildOptions.toTokens
    simp only [List.filter_append]
    rw [filter_optTok_nil (fun a => tokIsFlag_append (by decide) _),
      filter_iteTok_nil (by decide),
      filter_iteTok_nil (by decide),
      filter_iteTok_nil (by decide),
      filter_iteTok_nil (by decide),
      filter_iteTok_nil (by decide),
      filter_iteTok_nil (by decide),
      filter_optTok_nil (fun a => tokIsFlag_append (by decide) _),
      filter_sanTok_nil (by decide) (fun s2 => tokIsFlag_append (by decide) _),
      filter_iteTok_nil (by decide),
      filter_iteTok_nil (by decide),
      filter_iteTok_nil (by decide),
      filter_iteTok_nil (by decide),
      filter_iteTok_nil (by decide),
      filter_iteTok_nil (by decide),
      filter_iteTok_nil (by decide),
      filter_iteTok_nil (tokIsFlag_append (by decide) _),
      filter_mapZ_nil (fun u => tokIsFlag_append (by decide) _),
      filter_iteTok_nil (by decide),
      filter_iteTok_self (by decide),
      filter_optTok_nil (fun a => tokIsFlag_append (by decide) _)]
    simp
  · unfold BuildOptions.toTokens MoveBuildOptions.toTokens CargoBuildOptions.toTokens
    simp only [List.filter_append]
    rw [filter_optTok_nil (fun a => tokOfVal_clash (by decide) _),
      filter_iteTok_nil (by decide),
      filter_iteTok_nil (by decide),
      filter_iteTok_nil (by decide),
      filter_iteTok_nil (by decide),
      filter_iteTok_nil (by decide),
      filter_iteTok_nil (by decide),
      filter_optTok_nil (fun a => tokOfVal_clash (by decide) _),
      filter_sanTok_nil (by decide) (fun s2 => tokOfVal_clash (by decide) _),
      filter_iteTok_nil (by decide),
      filter_iteTok_nil (by decide),
      filter_iteTok_nil (by decide),
      filter_iteTok_nil (by decide),
      filter_iteTok_nil (by decide),
      filter_iteTok_nil (by decide),
      filter_iteTok_nil (by decide),
      filter_iteTok_nil (tokOfVal_clash (by decide) _),
      filter_mapZ_nil (fun u => tokOfVal_clash (by decide) _),
      filter_iteTok_nil (by decide),
      filter_iteTok_nil (by decide),
      filter_optTok_self (fun a => tokOfVal_self _ _)]
    simp

/-! Helpers for the cargo-level claims: decidability of the option
predicates, the filters of a cargo serialization, and parsing a cargo-only
flag string through the repository's `BuildOptions` entry point. -/

instance (c : CargoBuildOptions) : Decidable c.wf := by
  unfold CargoBuildOptions.wf
  infer_instance

instance (c : CargoBuildOptions) : Decidable c.valid := by
  unfold CargoBuildOptions.valid
  infer_instance

instance (o : BuildOptions) : Decidable o.wf := by
  unfold BuildOptions.wf
  infer_instance

instance (o : BuildOptions) : Decidable o.valid := by
  unfold BuildOptions.valid
  infer_instance

lemma cargo_filter_san (c : CargoBuildOptions) :
    c.toTokens.filter (tokOfVal "--sanitizer=") = sanTok c.sanitizer := by
  unfold CargoBuildOptions.toTokens
  simp only [List.filter_append]
  rw [filter_iteTok_nil (by decide),
      filter_iteTok_nil (by decide),
      filter_iteTok_nil (by decide),
      filter_optTok_nil (fun a => tokOfVal_clash (by decide) _),
      filter_sanTok_self (by decide) (fun s2 => tokOfVal_self _ _),
      filter_iteTok_nil (by decide),
      filter_iteTok_nil (by decide),
      filter_iteTok_nil (by decide),
      filter_iteTok_nil (by decide),
      filter_iteTok_nil (by decide),
      filter_iteTok_nil (by decide),
      filter_iteTok_nil (by decide),
      filter_iteTok_nil (tokOfVal_clash (by decide) _),
      filter_mapZ_nil (fun u => tokOfVal_clash (by decide) _)]
  simp

lemma cargo_filter_target (c : CargoBuildOptions) :
    c.toTokens.filter (tokOfVal "--target=") = (if c.triple ≠ defaultTarget then ["--target=" ++ c.triple] else []) := by
  unfold CargoBuildOptions.toTokens
  simp only [List.filter_append]
  rw [filter_iteTok_nil (by decide),
      filter_iteTok_nil (by decide),
      filter_iteTok_nil (by decide),
      filter_optTok_nil (fun a => tokOfVal_clash (by decide) _),
      filter_sanTok_nil (by decide) (fun s2 => tokOfVal_clash (by decide) _),
      filter_iteTok_nil (by decide),
      filter_iteTok_nil (by decide),
      filter_iteTok_nil (by decide),
      filter_iteTok_nil (by decide),
      filter_iteTok_nil (by decide),
      filter_iteTok_nil (by decide),
      filter_iteTok_nil (by decide),
      filter_iteTok_self (tokOfVal_self _ _),
      filter_mapZ_nil (fun u => tokOfVal_clash (by decide) _)]
  simp

lemma cargo_filter_unstable (c : CargoBuildOptions) :
    c.toTokens.filter (tokOfVal "-Z") = (c.unstable_flags.map fun u => "-Z" ++ u) := by
  unfold CargoBuildOptions.toTokens
  simp only [List.filter_append]
  rw [filter_iteTok_nil (by decide),
      filter_iteTok_nil (by decide),
      filter_iteTok_nil (by decide),
      filter_optTok_nil (fun a => tokOfVal_clash (by decide) _),
      filter_sanTok_nil (by decide) (fun s2 => tokOfVal_clash (by decide) _),
      filter_iteTok_nil (by decide),
      filter_iteTok_nil (by decide),
      filter_iteTok_nil (by decide),
      filter_iteTok_nil (by decide),
      filter_iteTok_nil (by decide),
      filter_iteTok_nil (by decide),
      filter_iteTok_nil (by decide),
      filter_iteTok_nil (tokOfVal_clash (by decide) _),
      filter_mapZ_self (fun u => tokOfVal_self _ _)]
  simp

lemma embed_display (c : CargoBuildOptions) :
    BuildOptions.display { defaultBuild with cargo_options := c } = c.display := by
  unfold BuildOptions.display CargoBuildOptions.display BuildOptions.toTokens
  simp [defaultBuild, defaultMove, MoveBuildOptions.toTokens, optTok]

lemma cargo_embed_roundtrip {c : CargoBuildOptions} (hw : c.wf) (hv : c.valid) :
    parseBuildString c.display = .ok { defaultBuild with cargo_options := c } := by
  rw [← embed_display c]
  refine roundtrip_build ⟨fun h => absurd h.1 (by simp [defaultBuild]), hv⟩
    ⟨trivial, hw, trivial⟩

/-! Claim C1: the round-trip law. -/

/-- Counterexample input for the round-trip law as stated: a value that
satisfies the documented invariants but whose `target_dir` contains a
space. -/
def cexSpace : BuildOptions := { defaultBuild with target_dir := some "a b" }

/-- C1, counterexample: `cexSpace` satisfies the documented invariants
(no dev/release conflict, no feature-flag conflict), yet parsing its
serialization does not give it back: the space inside the `--target-dir`
value splits into a stray token that the parser rejects. -/
theorem C1_roundtrip_counterexample :
    cexSpace.valid ∧
    parseBuildString cexSpace.display = .error .unrecognizedFlag ∧
    parseBuildString cexSpace.display ≠ .ok cexSpace := by
  decide

/-- C1, amended: for every `BuildOptions` satisfying the documented
invariants whose string-valued fields are space-free, whose unstable
flags are nonempty, whose bytecode version fits in a `u32`, and whose
programmatic-only `coverage` field is off, parsing the serialized string
(the repository's `parse_from(to_string().split(' '))` round trip) yields
the original value. -/
theorem C1_parse_serialize_roundtrip (o : BuildOptions) (hv : o.valid) (hw : o.wf) :
    parseBuildString o.display = .ok o :=
  roundtrip_build hv hw

/-- Concrete witness for C1. -/
def witC1 : BuildOptions :=
  { defaultBuild with
    verbose := true
    target_dir := some "/tmp/test"
    move_options := { defaultMove with bytecode_version := some 7, force := true }
    cargo_options :=
      { defaultCargo with
        release := true
        features := some "foo"
        sanitizer := .None
        triple := "custom_triple"
        unstable_flags := ["a", "b"] } }

theorem C1_parse_serialize_roundtrip_witness :
    witC1.valid ∧ witC1.wf ∧ parseBuildString witC1.display = .ok witC1 :=
  ⟨by decide, by decide, C1_parse_serialize_roundtrip witC1 (by decide) (by decide)⟩

/-! Claim C2: the hidden `coverage` field. -/

/-- The all-defaults options with the programmatic-only `coverage` bit
set. -/
def cexCoverage : BuildOptions :=
  { defaultBuild with cargo_options := { defaultCargo with coverage := true } }

/-- C2, counterexample: with `coverage = true` the serializer does emit
`--coverage`, but parsing the serialized output does not recover
`coverage = true`: the token is rejected as an unknown flag, because the
field is declared with `#[arg(skip = false)]` and is not an argument. -/
theorem C2_coverage_counterexample :
    cexCoverage.display = " --coverage" ∧
    parseBuildString cexCoverage.display = .error .unrecognizedFlag ∧
    parseBuildString cexCoverage.display ≠ .ok cexCoverage := by
  decide

/-- C2, amended: every options value with `coverage = true` serializes to
a string containing the token `--coverage`, but the field does not round
trip: no token stream containing `--coverage` parses successfully at
all. -/
theorem C2_coverage_hidden :
    (∀ o : BuildOptions, o.cargo_options.coverage = true → "--coverage" ∈ o.toTokens) ∧
    (∀ (ts : List String) (o2 : BuildOptions), "--coverage" ∈ ts →
      parseBuildTokens ts ≠ .ok o2) := by
  constructor
  · intro o hc
    unfold BuildOptions.toTokens CargoBuildOptions.toTokens
    simp [hc]
  · intro ts o2 hmem hok
    unfold parseBuildTokens at hok
    cases haux : parseBuildAux ts defaultBuild with
    | error e => rw [haux] at hok; exact absurd hok (by simp)
    | ok o1 =>
      exact (aux_mem ts.length ts defaultBuild o1 le_rfl haux).2.2.2.2.2 hmem

theorem C2_coverage_hidden_witness :
    "--coverage" ∈ cexCoverage.toTokens ∧
    parseBuildTokens ["--coverage"] ≠ .ok defaultBuild :=
  ⟨C2_coverage_hidden.1 cexCoverage (by decide),
   C2_coverage_hidden.2 ["--coverage"] defaultBuild (by decide)⟩

/-! Claim C3: the sanitizer asymmetry. -/

/-- C3: serializing with `sanitizer = Address` emits no `--sanitizer=`
token at all; serializing with `sanitizer = None` emits exactly the token
`--sanitizer=none`; and parsing the serialized cargo options through the
repository's entry point recovers the original record (hence the original
sanitizer, never the other one). -/
theorem C3_sanitizer_asymmetry (c : CargoBuildOptions) (hw : c.wf) (hv : c.valid) :
    (c.sanitizer = .Address → c.toTokens.filter (tokOfVal "--sanitizer=") = []) ∧
    (c.sanitizer = .None →
      c.toTokens.filter (tokOfVal "--sanitizer=") = ["--sanitizer=none"]) ∧
    parseBuildString c.display = .ok { defaultBuild with cargo_options := c } := by
  refine ⟨?_, ?_, cargo_embed_roundtrip hw hv⟩
  · intro hA
    rw [cargo_filter_san, hA]
    rfl
  · intro hN
    rw [cargo_filter_san, hN]
    rfl

/-- Concrete witness for C3 on the `None` side. -/
def witC3 : CargoBuildOptions := { defaultCargo with sanitizer := .None }

theorem C3_sanitizer_asymmetry_witness :
    witC3.toTokens.filter (tokOfVal "--sanitizer=") = ["--sanitizer=none"] ∧
    parseBuildString witC3.display = .ok { defaultBuild with cargo_options := witC3 } :=
  ⟨(C3_sanitizer_asymmetry witC3 (by decide) (by decide)).2.1 (by decide),
   (C3_sanitizer_asymmetry witC3 (by decide) (by decide)).2.2⟩

/-! Claim C4: the sanitizer display names. -/

/-- C4, counterexample: the empty display string belongs to the `None`
variant, not to the implicit-default `Address` variant as the claim
states: `display Address` is `"address"`, not `""`. -/
theorem C4_display_counterexample :
    Sanitizer.display .Address ≠ "" ∧ Sanitizer.display .None = "" := by
  decide

/-- C4, amended: `display` returns the canonical lowercase name of every
variant except `None`, for which it returns the empty string. -/
theorem C4_display_names :
    Sanitizer.display .Address = "address" ∧
    Sanitizer.display .Leak = "leak" ∧
    Sanitizer.display .Memory = "memory" ∧
    Sanitizer.display .Thread = "thread" ∧
    Sanitizer.display .None = "" := by
  decide

/-! Claim C5: mutual-exclusion enforcement. -/

/-- A token stream with both conflicting flags and one unknown flag. -/
def cexConflictStream : List String := ["--dev", "--release", "--bogus"]

/-- C5, counterexample: not every token stream containing both `--dev`
and `--release` fails with the conflict error; an unknown token in the
stream surfaces as an unknown-flag error instead, since clap reports
unknown arguments before validating conflicts. -/
theorem C5_conflict_counterexample :
    "--dev" ∈ cexConflictStream ∧ "--release" ∈ cexConflictStream ∧
    parseBuildTokens cexConflictStream ≠ .error .conflict ∧
    parseBuildTokens cexConflictStream = .error .unrecognizedFlag := by
  decide

/-- C5, amended: on any token stream that lexes successfully (every token
recognized with a well-formed value), the presence of both `--dev` and
`--release`, or of `--all-features` with `--no-default-features` or with
`--features=<x>`, makes parsing fail with the conflict error. -/
theorem C5_conflict_errors (ts : List String) (o2 : BuildOptions)
    (haux : parseBuildAux ts defaultBuild = .ok o2)
    (hcase : ("--dev" ∈ ts ∧ "--release" ∈ ts) ∨
      ("--all-features" ∈ ts ∧ "--no-default-features" ∈ ts) ∨
      (∃ x, "--all-features" ∈ ts ∧ ("--features=" ++ x) ∈ ts)) :
    parseBuildTokens ts = .error .conflict := by
  have M := aux_mem ts.length ts defaultBuild o2 le_rfl haux
  unfold parseBuildTokens
  rw [haux]
  show checkConflicts o2 = .error .conflict
  unfold checkConflicts
  rcases hcase with ⟨h1, h2⟩ | ⟨h1, h2⟩ | ⟨x, h1, h2⟩
  · rw [if_pos (by simp [M.1 h1, M.2.1 h2])]
  · by_cases hc : (o2.dev && o2.cargo_options.release) = true
    · rw [if_pos hc]
    · rw [if_neg hc, if_pos (by simp [M.2.2.1 h1, M.2.2.2.1 h2])]
  · by_cases hc : (o2.dev && o2.cargo_options.release) = true
    · rw [if_pos hc]
    · rw [if_neg hc, if_pos (by simp [M.2.2.1 h1, M.2.2.2.2.1 x h2])]

theorem C5_conflict_errors_witness :
    parseBuildTokens ["--dev", "--release"] = .error .conflict :=
  C5_conflict_errors ["--dev", "--release"]
    { defaultBuild with
      dev := true
      cargo_options := { defaultCargo with release := true } }
    (by decide) (Or.inl ⟨by decide, by decide⟩)

/-! Claim C6: default omission. -/

/-- C6: serializing the all-defaults `BuildOptions` yields the empty
string, and in every serialization each flag appears exactly when its
field differs from the documented default: filtering the tokens by any
flag's recognizer recovers exactly that field's fragment, which is empty
at the default value. -/
theorem C6_default_omission :
    defaultBuild.display = "" ∧
    ∀ o : BuildOptions,
      o.toTokens.filter (tokOfVal "--bytecode-version=") =
        optTok o.move_options.bytecode_version (fun n => "--bytecode-version=" ++ natRepr n) ∧
      o.toTokens.filter (tokIsFlag "--fetch-deps-only") =
        (if o.move_options.fetch_deps_only = true then ["--fetch-deps-only"] else []) ∧
      o.toTokens.filter (tokIsFlag "--force") =
        (if o.move_options.force = true then ["--force"] else []) ∧
      o.toTokens.filter (tokIsFlag "--skip-fetch-latest-git-deps") =
        (if o.move_options.skip_fetch_latest_git_deps = true then ["--skip-fetch-latest-git-deps"] else []) ∧
      o.toTokens.filter (tokIsFlag "-O") =
        (if o.cargo_options.release = true then ["-O"] else []) ∧
      o.toTokens.filter (tokIsFlag "--no-default-features") =
        (if o.cargo_options.no_default_features = true then ["--no-default-features"] else []) ∧
      o.toTokens.filter (tokIsFlag "--all-features") =
        (if o.cargo_options.all_features = true then ["--all-features"] else []) ∧
      o.toTokens.filter (tokOfVal "--features=") =
        optTok o.cargo_options.features (fun f => "--features=" ++ f) ∧
      o.toTokens.filter (tokOfVal "--sanitizer=") =
        sanTok o.cargo_options.sanitizer ∧
      o.toTokens.filter (tokIsFlag "--build-std") =
        (if o.cargo_options.build_std = true then ["--build-std"] else []) ∧
      o.toTokens.filter (tokIsFlag "--careful") =
        (if o.cargo_options.careful_mode = true then ["--careful"] else []) ∧
      o.toTokens.filter (tokIsFlag "--coverage") =
        (if o.cargo_options.coverage = true then ["--coverage"] else []) ∧
      o.toTokens.filter (tokIsFlag "--debug-assertions") =
        (if o.cargo_options.debug_assertions = true then ["--debug-assertions"] else []) ∧
      o.toTokens.filter (tokIsFlag "--strip-dead-code") =
        (if o.cargo_options.strip_dead_code = true then ["--strip-dead-code"] else []) ∧
      o.toTokens.filter (tokIsFlag "--no-cfg-fuzzing") =
        (if o.cargo_options.no_cfg_fuzzing = true then ["--no-cfg-fuzzing"] else []) ∧
      o.toTokens.filter (tokIsFlag "--no-trace-compares") =
        (if o.cargo_options.no_trace_compares = true then ["--no-trace-compares"] else []) ∧
      o.toTokens.filter (tokOfVal "--target=") =
        (if o.cargo_options.triple ≠ defaultTarget then ["--target=" ++ o.cargo_options.triple] else []) ∧
      o.toTokens.filter (tokOfVal "-Z") =
        (o.cargo_options.unstable_flags.map fun u => "-Z" ++ u) ∧
      o.toTokens.filter (tokIsFlag "-D") =
        (if o.dev = true then ["-D"] else []) ∧
      o.toTokens.filter (tokIsFlag "-v") =
        (if o.verbose = true then ["-v"] else []) ∧
      o.toTokens.filter (tokOfVal "--target-dir=") =
        optTok o.target_dir (fun d => "--target-dir=" ++ d) :=
  ⟨by decide, toTokens_filters⟩

/-! Claim C7: triple omission. -/

/-- C7: a cargo configuration whose triple is the host default emits no
`--target=` token; with `triple = "custom_triple"` the token
`--target=custom_triple` is emitted, and parsing the serialized string
recovers the original record, triple included. -/
theorem C7_triple_omission (c : CargoBuildOptions) (hw : c.wf) (hv : c.valid) :
    (c.triple = defaultTarget → c.toTokens.filter (tokOfVal "--target=") = []) ∧
    (c.triple = "custom_triple" → "--target=custom_triple" ∈ c.toTokens) ∧
    parseBuildString c.display = .ok { defaultBuild with cargo_options := c } := by
  refine ⟨?_, ?_, cargo_embed_roundtrip hw hv⟩
  · intro hdef
    rw [cargo_filter_target, hdef]
    simp
  · intro hcus
    unfold CargoBuildOptions.toTokens
    rw [hcus]
    simp +decide [defaultTarget]

/-- Concrete witness for C7. -/
def witC7 : CargoBuildOptions := { defaultCargo with triple := "custom_triple" }

theorem C7_triple_omission_witness :
    "--target=custom_triple" ∈ witC7.toTokens ∧
    parseBuildString witC7.display = .ok { defaultBuild with cargo_options := witC7 } :=
  ⟨(C7_triple_omission witC7 (by decide) (by decide)).2.1 (by decide),
   (C7_triple_omission witC7 (by decide) (by decide)).2.2⟩

/-! Claim C8: unstable-flag order preservation. -/

/-- A cargo configuration with one empty unstable flag. -/
def cexUnstable : CargoBuildOptions := { defaultCargo with unstable_flags := [""] }

/-- C8, counterexample: the round trip does not hold for every value of
`unstable_flags`: the empty entry serializes to the bare token `-Z`,
which the parser rejects for want of a value, so parsing fails instead of
recovering the sequence. -/
theorem C8_unstable_counterexample :
    cexUnstable.display = " -Z" ∧
    parseBuildString cexUnstable.display = .error .malformedValue ∧
    parseBuildString cexUnstable.display ≠ .ok { defaultBuild with cargo_options := cexUnstable } := by
  decide

/-- C8, amended: for well-formed options (space-free, nonempty unstable
flags), the serializer emits one `-Z<flag>` token per entry preserving
the original order — the `-Z`-recognized tokens are exactly
`unstable_flags` in order — and parsing the serialized string recovers
the original record, sequence order included. -/
theorem C8_unstable_order (c : CargoBuildOptions) (hw : c.wf) (hv : c.valid) :
    c.toTokens.filter (tokOfVal "-Z") = (c.unstable_flags.map fun u => "-Z" ++ u) ∧
    parseBuildString c.display = .ok { defaultBuild with cargo_options := c } :=
  ⟨cargo_filter_unstable c, cargo_embed_roundtrip hw hv⟩

/-- Concrete witness for C8 at `unstable_flags = ["a", "b"]`. -/
def witC8 : CargoBuildOptions := { defaultCargo with unstable_flags := ["a", "b"] }

theorem C8_unstable_order_witness :
    witC8.toTokens.filter (tokOfVal "-Z") = ["-Za", "-Zb"] ∧
    parseBuildString witC8.display = .ok { defaultBuild with cargo_options := witC8 } := by
  have h := C8_unstable_order witC8 (by decide) (by decide)
  exact ⟨by rw [h.1]; decide, h.2⟩

/-! Claim C9: malformed values. -/

/-- C9: a value-bearing flag with a missing or type-invalid value makes
parsing fail with the malformed-value error: any `--bytecode-version=`
whose value is not a valid `u32` (in particular the non-numeric `abc`),
any `--sanitizer=` with an unknown name, and a value-bearing flag at the
end of the stream with no value at all. -/
theorem C9_malformed_values :
    (∀ v : String, parseU32 v.data = none →
      parseBuildTokens ["--bytecode-version=" ++ v] = .error .malformedValue) ∧
    (∀ v : String, parseSanitizer v.data = none →
      parseBuildTokens ["--sanitizer=" ++ v] = .error .malformedValue) ∧
    parseBuildTokens ["--bytecode-version"] = .error .malformedValue ∧
    parseBuildTokens ["--features"] = .error .malformedValue ∧
    parseBuildTokens ["--bytecode-version=abc"] = .error .malformedValue := by
  refine ⟨?_, ?_, by decide, by decide, by decide⟩
  · intro v hv
    have h1 : parseBuildAux ["--bytecode-version=" ++ v] defaultBuild =
        .error .malformedValue := by
      simp only [parseBuildAux]
      rw [buildTok_bytecode_bad hv]
    unfold parseBuildTokens
    rw [h1]
  · intro v hv
    have h1 : parseBuildAux ["--sanitizer=" ++ v] defaultBuild =
        .error .malformedValue := by
      simp only [parseBuildAux]
      rw [buildTok_sanitizer_bad hv]
    unfold parseBuildTokens
    rw [h1]

theorem C9_malformed_values_witness :
    parseBuildTokens ["--bytecode-version=" ++ "abc"] = .error .malformedValue ∧
    parseBuildTokens ["--sanitizer=" ++ "bogus"] = .error .malformedValue :=
  ⟨C9_malformed_values.1 "abc" (by decide),
   C9_malformed_values.2.1 "bogus" (by decide)⟩

/-! Claim C10: the leading separator space. -/

/-- C10: every nonempty serialization of any of the four option records
begins with a single space, because each flag token is written with a
leading space separator. -/
theorem C10_leading_space :
    (∀ o : BuildOptions, o.display ≠ "" → o.display.data.head? = some ' ') ∧
    (∀ m : MoveBuildOptions, m.display ≠ "" → m.display.data.head? = some ' ') ∧
    (∀ c : CargoBuildOptions, c.display ≠ "" → c.display.data.head? = some ' ') ∧
    (∀ w : FuzzDirWrapper, w.display ≠ "" → w.display.data.head? = some ' ') :=
  ⟨fun _ h => renderTokens_head h, fun _ h => renderTokens_head h,
   fun _ h => renderTokens_head h, fun _ h => renderTokens_head h⟩

theorem C10_leading_space_witness :
    (BuildOptions.display { defaultBuild with dev := true }).data.head? = some ' ' ∧
    (MoveBuildOptions.display { defaultMove with force := true }).data.head? = some ' ' ∧
    (CargoBuildOptions.display { defaultCargo with release := true }).data.head? = some ' ' ∧
    (FuzzDirWrapper.display { fuzz_dir := some "d" }).data.head? = some ' ' :=
  ⟨C10_leading_space.1 _ (by decide), C10_leading_space.2.1 _ (by decide),
   C10_leading_space.2.2.1 _ (by decide), C10_leading_space.2.2.2 _ (by decide)⟩

end MoveFuzz
